import Mathlib

/-!
Shallow embedding of the peripheral-device emulation core of the DtCyber
CDC 6000-series emulator: the 3000-series line printer (lp3000.c), the 1612
line printer (lp1612.c) and the 6612 console (console.c).  Stateful C code
becomes explicit state passing over record types; `FILE *` output becomes a
`List Char` of bytes written; 12-bit machine words are `Nat` with explicit
masking; flag words are `Nat` with bitwise operations.
-/

namespace DtCyber

/-- Result of a device `func` handler (`FcStatus` in types.h):
`accepted` latches the code, `processed` handles it synchronously,
`declined` rejects it. -/
inductive FcStatus where
  | accepted
  | processed
  | declined
deriving DecidableEq

/-- Models the C idiom `flags &= ~m` on a 12-bit flag word:
keep the bits of `f` outside the mask `m` (for `f, m < 4096`). -/
def clearBits (f m : Nat) : Nat := f &&& (4095 ^^^ m)

/-! ## 3000-series line printer (lp3000.c)

Flag bits stored in the context `flags` field. -/

def Lp3000Type501 : Nat := 0o1
def Lp3000Type512 : Nat := 0o2
def Lp3000Type3152 : Nat := 0o10
def Lp3000Type3555 : Nat := 0o20
def Lp3555FillImageMem : Nat := 0o100
def Lp3000IntReady : Nat := 0o200
def Lp3000IntEnd : Nat := 0o400
def Lp3000IntReadyEna : Nat := 0o2000
def Lp3000IntEndEna : Nat := 0o4000

/-! Function codes common to the 3152/3256/3659 and 3555 controllers. -/

def FcPrintRelease : Nat := 0o0
def FcPrintSingle : Nat := 0o1
def FcPrintDouble : Nat := 0o2
def FcPrintLastLine : Nat := 0o3
def FcPrintEject : Nat := 0o4
def FcPrintAutoEject : Nat := 0o5
def FcPrintNoSpace : Nat := 0o6

/-! Codes for the 3152/3256/3659 controller. -/

def Fc3152ClearFormat : Nat := 0o10
def Fc3152PostVFU1 : Nat := 0o11
def Fc3152PostVFU6 : Nat := 0o16
def Fc3152SelectPreprint : Nat := 0o20
def Fc3152PreVFU1 : Nat := 0o21
def Fc3152PreVFU6 : Nat := 0o26
def Fc3152SelIntReady : Nat := 0o30
def Fc3152RelIntReady : Nat := 0o31
def Fc3152SelIntEnd : Nat := 0o32
def Fc3152RelIntEnd : Nat := 0o33
def Fc3152SelIntError : Nat := 0o34
def Fc3152RelIntError : Nat := 0o35
def Fc3152Release2 : Nat := 0o40

/-! Codes for the 3555 controller. -/

def Fc3555CondClearFormat : Nat := 0o7
def Fc3555Sel8Lpi : Nat := 0o10
def Fc3555Sel6Lpi : Nat := 0o11
def Fc3555FillMemory : Nat := 0o12
def Fc3555SelExtArray : Nat := 0o13
def Fc3555ClearExtArray : Nat := 0o14
def Fc3555SelIntReady : Nat := 0o20
def Fc3555RelIntReady : Nat := 0o21
def Fc3555SelIntEnd : Nat := 0o22
def Fc3555RelIntEnd : Nat := 0o23
def Fc3555SelIntError : Nat := 0o24
def Fc3555RelIntError : Nat := 0o25
def Fc3555ReloadMemEnable : Nat := 0o26
def Fc3555ClearFormat : Nat := 0o30
def Fc3555PostVFU1 : Nat := 0o31
def Fc3555PostVFU12 : Nat := 0o44
def Fc3555SelectPreprint : Nat := 0o50
def Fc3555PreVFU1 : Nat := 0o51
def Fc3555PreVFU12 : Nat := 0o64
def Fc3555MaintStatus : Nat := 0o65
def Fc3555ClearMaint : Nat := 0o66

/-- Modelled from the spec: the 6681 data-channel-converter function codes
come from dcc6681.h, which is not among the sources.  The claims depend only
on these codes being distinct from every 3000-series printer code (all of
which are below 0o100); the values follow the 6681 converter protocol. -/
def Fc6681DevStatusReq : Nat := 0o1300

/-- Modelled from the spec: see `Fc6681DevStatusReq`. -/
def Fc6681Output : Nat := 0o1600

/-- Modelled from the spec: see `Fc6681DevStatusReq`. -/
def Fc6681MasterClear : Nat := 0o1700

/-! Status reply bits (shared by the two controllers). -/

def StPrintReady : Nat := 0o1
def StPrintIntReady : Nat := 0o200
def StPrintIntEnd : Nat := 0o400

/-- `LpInchesPerPage` from lp3000.c: octal 11, i.e. nine. -/
def LpInchesPerPage : Nat := 0o11

/-- Modelled from the spec: the 64-entry `bcdToAscii` display-code-to-ASCII
table lives in const.c, which is not among the sources.  No claim depends on
its entries; it is modelled as the standard CDC 64-character display-code
set (colon, A-Z, digits, then punctuation; entry 0o70 is the apostrophe). -/
def bcdToAsciiTable : List Char :=
  [':', 'A', 'B', 'C', 'D', 'E', 'F', 'G', 'H', 'I', 'J', 'K', 'L', 'M',
   'N', 'O', 'P', 'Q', 'R', 'S', 'T', 'U', 'V', 'W', 'X', 'Y', 'Z',
   '0', '1', '2', '3', '4', '5', '6', '7', '8', '9',
   '+', '-', '*', '/', '(', ')', '$', '=', ' ', ',', '.',
   '#', '[', ']', '%', '"', '_', '!', '&', Char.ofNat 39, '?',
   '<', '>', '@', '\\', '^', ';']

/-- Look up one display-code character.  See `bcdToAsciiTable`. -/
def bcdToAscii (b : Nat) : Char := bcdToAsciiTable.getD (b % 64) ' '

/-- The per-device context block `LpContext` of lp3000.c.  `u8` fields are
`Nat` kept below 256 by explicit wrap-around where the source increments. -/
structure LpContext where
  flags : Nat
  printed : Bool
  keepInt : Bool
  extspaceopt : Nat
  extlpi : Nat
  extlpp : Nat
  extcurline : Nat
  extuseANSI : Bool
  extsuppress : Bool
  extpostprint : Bool
deriving DecidableEq

/-- State touched by the lp3000 callbacks: the context block, the device
slot's latched `fcode`, the active channel's word, the dcc6681 aggregate
device-interrupt summary (`dcc6681Interrupt`'s argument), whether `fcb[0]`
is non-null, and the bytes written to the capture file. -/
structure Lp3000State where
  lc : LpContext
  fcbOpen : Bool
  fcode : Nat
  chData : Nat
  chFull : Bool
  intSum : Bool
  output : List Char
deriving DecidableEq

/-- Append bytes to the capture file (`fputc`/`fprintf` on `fcb`). -/
def lpEmit (s : Lp3000State) (cs : List Char) : Lp3000State :=
  { s with output := s.output ++ cs }

/-- The `Fc6681MasterClear` case body of `lp3000Func`: reset the context
extensions to their defaults and emit a form feed (an ASA `1` in ANSI mode). -/
def lp3000MasterClear (s : Lp3000State) : Lp3000State :=
  let s := { s with lc := { s.lc with
    extspaceopt := FcPrintSingle
    extlpi := 6
    extlpp := LpInchesPerPage * 6
    extcurline := 1
    extsuppress := false
    extpostprint := true } }
  if s.lc.extuseANSI then lpEmit s ['1'] else lpEmit s ['\x0c']

/-- The `FcPrintRelease` case body of `lp3000Func`: clear the latched
interrupt conditions; if anything was printed since the previous release,
flush and run the paper-removal cycle (closing, archiving and reopening the
capture file truncated) and clear `printed`. -/
def lp3000Release (s : Lp3000State) : Lp3000State :=
  let s := { s with lc := { s.lc with
    flags := clearBits s.lc.flags (StPrintIntReady ||| StPrintIntEnd) } }
  if s.lc.printed then
    { s with lc := { s.lc with printed := false }, output := [] }
  else s

/-- The `FcPrintSingle` case body of `lp3000Func`.  In ANSI mode the line
advance is written only in preprint mode; in ASCII mode it is written
unconditionally. -/
def lp3000FuncSingle (s : Lp3000State) : Lp3000State :=
  let s := { s with lc := { s.lc with extspaceopt := FcPrintSingle } }
  if s.lc.extuseANSI then
    if !s.lc.extpostprint then
      { lpEmit s ['\n', ' '] with
        lc := { s.lc with extcurline := (s.lc.extcurline + 1) % 256 } }
    else s
  else
    { lpEmit s ['\n'] with
      lc := { s.lc with extcurline := (s.lc.extcurline + 1) % 256 } }

/-- The `FcPrintDouble` case body of `lp3000Func`. -/
def lp3000FuncDouble (s : Lp3000State) : Lp3000State :=
  let s := { s with lc := { s.lc with extspaceopt := FcPrintDouble } }
  if s.lc.extuseANSI then
    if !s.lc.extpostprint then
      { lpEmit s ['\n', '0'] with
        lc := { s.lc with extcurline := (s.lc.extcurline + 2) % 256 } }
    else s
  else
    { lpEmit s ['\n', '\n'] with
      lc := { s.lc with extcurline := (s.lc.extcurline + 2) % 256 } }

/-- The `FcPrintLastLine` case body of `lp3000Func`: a single blank line. -/
def lp3000FuncLastLine (s : Lp3000State) : Lp3000State :=
  if s.lc.extuseANSI then
    { lpEmit s ['\n', ' '] with
      lc := { s.lc with extcurline := (s.lc.extcurline + 1) % 256 } }
  else
    { lpEmit s ['\n'] with
      lc := { s.lc with extcurline := (s.lc.extcurline + 1) % 256 } }

/-- The `FcPrintEject` case body of `lp3000Func`: reset `extcurline` and
emit a form feed (ASA `1` line in ANSI mode). -/
def lp3000FuncEject (s : Lp3000State) : Lp3000State :=
  let s := { s with lc := { s.lc with extcurline := 1 } }
  if s.lc.extuseANSI then lpEmit s ['\n', '1'] else lpEmit s ['\x0c']

/-- The interrupt pre-set of the `Fc6681Output` case of `lp3000Func`:
initially clear the latched interrupt status flags, then set each latched
bit whose enable is on, reflecting the status at the end of the transfer. -/
def lp3000OutputFlags (f : Nat) : Nat :=
  let f1 := clearBits f (StPrintIntReady ||| StPrintIntEnd)
  let f2 := if f1 &&& Lp3000IntReadyEna ≠ 0 then f1 ||| Lp3000IntReady else f1
  if f2 &&& Lp3000IntEndEna ≠ 0 then f2 ||| Lp3000IntEnd else f2

/-- The `Fc6681Output` case body of `lp3000Func`: shift to the discard
variant when fill-image-memory is flagged, pre-set the enabled latched
interrupt bits, recompute the interrupt summary and latch the code. -/
def lp3000FuncOutput (s : Lp3000State) : FcStatus × Lp3000State :=
  let fill := s.lc.flags &&& Lp3555FillImageMem ≠ 0
  let funcCode := if fill then Fc6681Output + 1 else Fc6681Output
  let f0 := if fill then clearBits s.lc.flags Lp3555FillImageMem else s.lc.flags
  let f3 := lp3000OutputFlags f0
  (FcStatus.accepted,
    { s with lc := { s.lc with flags := f3 }
             intSum := f3 &&& (Lp3000IntReady ||| Lp3000IntEnd) != 0
             fcode := funcCode })

/-- The `SelIntReady` case body shared verbatim by the 3555 and 3152
switches of `lp3000Func`: set the latched bit and its enable, then clear
the latched bit again unless `keepInt` is set. -/
def lp3000SelIntReady (s : Lp3000State) : Lp3000State :=
  let f := s.lc.flags ||| (Lp3000IntReady ||| Lp3000IntReadyEna)
  let lc := if s.lc.keepInt then { s.lc with flags := f, keepInt := false }
            else { s.lc with flags := clearBits f Lp3000IntReady }
  { s with lc := lc
           intSum := lc.flags &&& (Lp3000IntReady ||| Lp3000IntEnd) != 0 }

/-- The `RelIntReady` case body shared by the two controller switches. -/
def lp3000RelIntReady (s : Lp3000State) : Lp3000State :=
  let f := clearBits s.lc.flags (Lp3000IntReadyEna ||| Lp3000IntReady)
  { s with lc := { s.lc with flags := f }
           intSum := f &&& (Lp3000IntReady ||| Lp3000IntEnd) != 0 }

/-- The `SelIntEnd` case body shared by the two controller switches. -/
def lp3000SelIntEnd (s : Lp3000State) : Lp3000State :=
  let f := s.lc.flags ||| (Lp3000IntEnd ||| Lp3000IntEndEna)
  let lc := if s.lc.keepInt then { s.lc with flags := f, keepInt := false }
            else { s.lc with flags := clearBits f Lp3000IntEnd }
  { s with lc := lc
           intSum := lc.flags &&& (Lp3000IntReady ||| Lp3000IntEnd) != 0 }

/-- The `RelIntEnd` case body shared by the two controller switches. -/
def lp3000RelIntEnd (s : Lp3000State) : Lp3000State :=
  let f := clearBits s.lc.flags (Lp3000IntEndEna ||| Lp3000IntEnd)
  { s with lc := { s.lc with flags := f }
           intSum := f &&& (Lp3000IntReady ||| Lp3000IntEnd) != 0 }

/-- The `Fc3555ClearFormat` case body of `lp3000Func`. -/
def lp3555ClearFormat (s : Lp3000State) : Lp3000State :=
  { s with lc := { s.lc with
    extspaceopt := FcPrintSingle
    extlpi := 6
    extlpp := LpInchesPerPage * 6
    extsuppress := false
    extpostprint := true } }

/-- `lp3000Func` from lp3000.c: execute a function code on the 3000-series
printer.  The common codes are dispatched first; the remaining codes are
interpreted per the controller type in `flags`.  All VFU codes are NOPs and
unknown codes are logged and treated as processed. -/
def lp3000Func (s : Lp3000State) (funcCode : Nat) : FcStatus × Lp3000State :=
  if s.fcbOpen = false then (FcStatus.processed, s)
  else if funcCode = FcPrintNoSpace then
    (FcStatus.processed, { s with lc := { s.lc with extsuppress := true } })
  else if funcCode = FcPrintAutoEject then (FcStatus.processed, s)
  else if funcCode = Fc6681MasterClear then
    (FcStatus.processed, lp3000MasterClear s)
  else if funcCode = FcPrintRelease then
    (FcStatus.processed, lp3000Release s)
  else if funcCode = FcPrintSingle then
    (FcStatus.processed, lp3000FuncSingle s)
  else if funcCode = FcPrintLastLine then
    (FcStatus.processed, lp3000FuncLastLine s)
  else if funcCode = FcPrintEject then
    (FcStatus.processed, lp3000FuncEject s)
  else if funcCode = FcPrintDouble then
    (FcStatus.processed, lp3000FuncDouble s)
  else if funcCode = Fc6681Output then lp3000FuncOutput s
  else if funcCode = Fc6681DevStatusReq then
    (FcStatus.accepted, { s with fcode := funcCode })
  else if s.lc.flags &&& Lp3000Type3555 ≠ 0 then
    if funcCode = Fc3555CondClearFormat then (FcStatus.processed, s)
    else if funcCode = Fc3555Sel8Lpi then
      (FcStatus.processed, { s with lc := { s.lc with
        extlpi := 8, extlpp := LpInchesPerPage * 8 } })
    else if funcCode = Fc3555Sel6Lpi then
      (FcStatus.processed, { s with lc := { s.lc with
        extlpi := 6, extlpp := LpInchesPerPage * 6 } })
    else if funcCode = Fc3555SelExtArray ∨ funcCode = Fc3555ClearExtArray ∨
        funcCode = Fc3555SelIntError ∨ funcCode = Fc3555RelIntError ∨
        funcCode = Fc3555ReloadMemEnable then (FcStatus.processed, s)
    else if funcCode = Fc3555ClearFormat then
      (FcStatus.processed, lp3555ClearFormat s)
    else if Fc3555PostVFU1 ≤ funcCode ∧ funcCode ≤ Fc3555PostVFU12 then
      (FcStatus.processed, s)
    else if funcCode = Fc3555SelectPreprint then
      (FcStatus.processed, { s with lc := { s.lc with extpostprint := false } })
    else if (Fc3555PreVFU1 ≤ funcCode ∧ funcCode ≤ Fc3555PreVFU12) ∨
        funcCode = Fc3555MaintStatus ∨ funcCode = Fc3555ClearMaint then
      (FcStatus.processed, s)
    else if funcCode = Fc3555FillMemory then
      (FcStatus.processed, { s with lc := { s.lc with
        flags := s.lc.flags ||| Lp3555FillImageMem } })
    else if funcCode = Fc3555SelIntReady then
      (FcStatus.processed, lp3000SelIntReady s)
    else if funcCode = Fc3555RelIntReady then
      (FcStatus.processed, lp3000RelIntReady s)
    else if funcCode = Fc3555SelIntEnd then
      (FcStatus.processed, lp3000SelIntEnd s)
    else if funcCode = Fc3555RelIntEnd then
      (FcStatus.processed, lp3000RelIntEnd s)
    else (FcStatus.processed, s)
  else
    if funcCode = Fc3152ClearFormat then
      (FcStatus.processed, { s with lc := { s.lc with extpostprint := true } })
    else if Fc3152PostVFU1 ≤ funcCode ∧ funcCode ≤ Fc3152PostVFU6 then
      (FcStatus.processed, s)
    else if funcCode = Fc3152SelectPreprint then
      (FcStatus.processed, { s with lc := { s.lc with extpostprint := false } })
    else if (Fc3152PreVFU1 ≤ funcCode ∧ funcCode ≤ Fc3152PreVFU6) ∨
        funcCode = Fc3152SelIntError ∨ funcCode = Fc3152RelIntError ∨
        funcCode = Fc3152Release2 then (FcStatus.processed, s)
    else if funcCode = Fc3152SelIntReady then
      (FcStatus.processed, lp3000SelIntReady s)
    else if funcCode = Fc3152RelIntReady then
      (FcStatus.processed, lp3000RelIntReady s)
    else if funcCode = Fc3152SelIntEnd then
      (FcStatus.processed, lp3000SelIntEnd s)
    else if funcCode = Fc3152RelIntEnd then
      (FcStatus.processed, lp3000RelIntEnd s)
    else (FcStatus.processed, s)

/-- `lp3000Io` from lp3000.c: one I/O cycle.  An `Output` transfer drains a
full channel word to the capture file (two display-code characters on a 501,
one ASCII byte on a 512); the discard variant drains silently; a status
request answers ready plus the latched interrupt bits and unlatches. -/
def lp3000Io (s : Lp3000State) : Lp3000State :=
  if s.fcbOpen = false then s
  else if s.fcode = Fc6681Output then
    if s.chFull then
      let bytes := if s.lc.flags &&& Lp3000Type501 ≠ 0 then
          [bcdToAscii ((s.chData >>> 6) &&& 0o77), bcdToAscii (s.chData &&& 0o77)]
        else [Char.ofNat (s.chData &&& 0o377)]
      { s with output := s.output ++ bytes
               chFull := false
               lc := { s.lc with printed := true, keepInt := true } }
    else s
  else if s.fcode = Fc6681Output + 1 then { s with chFull := false }
  else if s.fcode = Fc6681DevStatusReq then
    { s with chData := StPrintReady |||
               (s.lc.flags &&& (StPrintIntReady ||| StPrintIntEnd))
             chFull := true
             fcode := 0 }
  else { s with chFull := false }

/-- `lp3000Disconnect` from lp3000.c: finish an `Output` transaction by the
deferred carriage control -- a suppressed advance, the postprint spacing
selected by `extspaceopt`, or (preprint) the experimental tab -- and
unlatch the function code. -/
def lp3000Disconnect (s : Lp3000State) : Lp3000State :=
  if s.fcbOpen = false then s
  else if s.fcode = Fc6681Output then
    let s' :=
      if s.lc.extsuppress then
        { (if s.lc.extuseANSI then lpEmit s ['\n', '+'] else lpEmit s ['\r'])
          with lc := { s.lc with extsuppress := false } }
      else if s.lc.extpostprint then
        let s2 :=
          if s.lc.extspaceopt = FcPrintDouble then
            { (if s.lc.extuseANSI then lpEmit s ['\n', '0']
               else lpEmit s ['\n', '\n'])
              with lc := { s.lc with extcurline := (s.lc.extcurline + 2) % 256 } }
          else
            { (if s.lc.extuseANSI then lpEmit s ['\n', ' '] else lpEmit s ['\n'])
              with lc := { s.lc with extcurline := (s.lc.extcurline + 1) % 256 } }
        { s2 with lc := { s2.lc with extspaceopt := FcPrintSingle } }
      else lpEmit s ['\t']
    { s' with fcode := 0 }
  else s

/-- An interaction step on the printer's channel: one of the device
callbacks, or the peripheral processor placing a word on the channel
(`ppPut d` models the executive setting `data` and raising `full` between
callbacks). -/
inductive Lp3000Op where
  | func (code : Nat)
  | io
  | disconnect
  | ppPut (data : Nat)
deriving DecidableEq

/-- Apply one interaction step. -/
def lp3000Step (s : Lp3000State) : Lp3000Op → Lp3000State
  | Lp3000Op.func c => (lp3000Func s c).2
  | Lp3000Op.io => lp3000Io s
  | Lp3000Op.disconnect => lp3000Disconnect s
  | Lp3000Op.ppPut d => { s with chData := d % 4096, chFull := true }

/-- Run a sequence of interaction steps. -/
def lp3000Run (s : Lp3000State) : List Lp3000Op → Lp3000State
  | [] => s
  | op :: ops => lp3000Run (lp3000Step s op) ops

/-- The state set up by `lp3000Init`: context defaults (single space, six
lines per inch, postprint), a freshly opened capture file, no latched code. -/
def lp3000InitState (typeFlags : Nat) (useANSI : Bool) : Lp3000State :=
  { lc := { flags := typeFlags
            printed := false
            keepInt := false
            extspaceopt := FcPrintSingle
            extlpi := 6
            extlpp := LpInchesPerPage * 6
            extcurline := 1
            extuseANSI := useANSI
            extsuppress := false
            extpostprint := true }
    fcbOpen := true
    fcode := 0
    chData := 0
    chFull := false
    intSum := false
    output := [] }

/-! ## 1612 line printer (lp1612.c) -/

def FcPrintSelect : Nat := 0o600
def FcPrintSingleSpace : Nat := 0o601
def FcPrintDoubleSpace : Nat := 0o602
def FcPrintMoveChannel7 : Nat := 0o603
def FcPrintMoveTOF : Nat := 0o604
def FcPrintPrint : Nat := 0o605
def FcPrintSuppressLF : Nat := 0o606
def FcPrintStatusReq : Nat := 0o607
def FcPrintClearFormat : Nat := 0o610
def FcPrintFormat1 : Nat := 0o611
def FcPrintFormat6 : Nat := 0o616

/-- The 1612 ready status bit (bit 12 of the reply). -/
def StPrint1612Ready : Nat := 0o4000

/-- Modelled from the spec: the 64-entry `extBcdToAscii` external-BCD
conversion table lives in const.c, which is not among the sources.  The
spec fixes the two entries the claims use: external BCD 0o30 is `H` and
0o31 is `I`; the other entries are unconstrained and modelled as NUL. -/
def extBcdToAscii (b : Nat) : Char :=
  if b = 0o30 then 'H' else if b = 0o31 then 'I' else Char.ofNat 0

/-- State touched by the lp1612 callbacks: the context block's ANSI flag,
the latched `fcode`, the channel word and status, whether `fcb[0]` is
non-null, and the bytes written to the capture file. -/
structure Lp1612State where
  useANSI : Bool
  fcbOpen : Bool
  fcode : Nat
  chData : Nat
  chFull : Bool
  chStatus : Nat
  output : List Char
deriving DecidableEq

/-- Append bytes to the 1612 capture file. -/
def lp1612Emit (s : Lp1612State) (cs : List Char) : Lp1612State :=
  { s with output := s.output ++ cs }

/-- `lp1612Func` from lp1612.c: carriage-control codes emit their ASCII or
ANSI rendering immediately; `SuppressLF` is fully processed; every other
recognized code is latched; unknown codes are declined. -/
def lp1612Func (s : Lp1612State) (funcCode : Nat) : FcStatus × Lp1612State :=
  if s.fcbOpen = false then (FcStatus.processed, s)
  else if funcCode = FcPrintSelect then
    (FcStatus.accepted, { s with fcode := funcCode })
  else if funcCode = FcPrintSingleSpace ∨ funcCode = FcPrintMoveChannel7 ∨
      funcCode = FcPrintPrint then
    (FcStatus.accepted,
      { lp1612Emit s (if s.useANSI then ['\n', ' '] else ['\n'])
        with fcode := funcCode })
  else if funcCode = FcPrintDoubleSpace then
    (FcStatus.accepted,
      { lp1612Emit s (if s.useANSI then ['\n', '0'] else ['\n', '\n'])
        with fcode := funcCode })
  else if funcCode = FcPrintMoveTOF then
    (FcStatus.accepted,
      { lp1612Emit s (if s.useANSI then ['\n', '1'] else ['\x0c'])
        with fcode := funcCode })
  else if funcCode = FcPrintSuppressLF then
    (FcStatus.processed,
      lp1612Emit s (if s.useANSI then ['\n', '+'] else ['\r']))
  else if funcCode = FcPrintStatusReq then
    (FcStatus.accepted, { s with chStatus := StPrint1612Ready, fcode := funcCode })
  else if FcPrintClearFormat ≤ funcCode ∧ funcCode ≤ FcPrintFormat6 then
    (FcStatus.accepted, { s with fcode := funcCode })
  else (FcStatus.declined, s)

/-- `lp1612Io` from lp1612.c: on a status request, answer the channel's
current status word and unlatch; for every other latched code, drain a full
channel word by printing the external-BCD character in its low six bits. -/
def lp1612Io (s : Lp1612State) : Lp1612State :=
  if s.fcbOpen = false then s
  else if s.fcode = FcPrintStatusReq then
    { s with chData := s.chStatus, chFull := true, fcode := 0, chStatus := 0 }
  else if s.chFull then
    { s with output := s.output ++ [extBcdToAscii (s.chData &&& 0o77)]
             chFull := false }
  else s

/-- `lp1612Disconnect` from lp1612.c: unconditionally terminate the line
(a newline, or an ASA blank-advance line in ANSI mode). -/
def lp1612Disconnect (s : Lp1612State) : Lp1612State :=
  if s.fcbOpen = false then s
  else lp1612Emit s (if s.useANSI then ['\n', ' '] else ['\n'])

/-- An interaction step on the 1612's channel (see `Lp3000Op`). -/
inductive Lp1612Op where
  | func (code : Nat)
  | io
  | disconnect
  | ppPut (data : Nat)
deriving DecidableEq

/-- Apply one 1612 interaction step. -/
def lp1612Step (s : Lp1612State) : Lp1612Op → Lp1612State
  | Lp1612Op.func c => (lp1612Func s c).2
  | Lp1612Op.io => lp1612Io s
  | Lp1612Op.disconnect => lp1612Disconnect s
  | Lp1612Op.ppPut d => { s with chData := d % 4096, chFull := true }

/-- Run a sequence of 1612 interaction steps. -/
def lp1612Run (s : Lp1612State) : List Lp1612Op → Lp1612State
  | [] => s
  | op :: ops => lp1612Run (lp1612Step s op) ops

/-- The state set up by `lp1612Init` in ASCII mode: a freshly opened capture
file, nothing latched, channel idle. -/
def lp1612InitAscii : Lp1612State :=
  { useANSI := false
    fcbOpen := true
    fcode := 0
    chData := 0
    chFull := false
    chStatus := 0
    output := [] }

/-- The claim C8 transaction: select, one data word holding external BCD
0o30 and 0o31, a single space, then disconnect. -/
def c8Ops : List Lp1612Op :=
  [Lp1612Op.func FcPrintSelect,
   Lp1612Op.ppPut 0o3031,
   Lp1612Op.io,
   Lp1612Op.func FcPrintSingleSpace,
   Lp1612Op.disconnect]

/-! ## 6612 console (console.c) -/

def Fc6612Sel64CharLeft : Nat := 0o7000
def Fc6612Sel32CharLeft : Nat := 0o7001
def Fc6612Sel16CharLeft : Nat := 0o7002
def Fc6612Sel512DotsLeft : Nat := 0o7010
def Fc6612Sel512DotsRight : Nat := 0o7110
def Fc6612SelKeyIn : Nat := 0o7020
def Fc6612Sel64CharRight : Nat := 0o7100
def Fc6612Sel32CharRight : Nat := 0o7101
def Fc6612Sel16CharRight : Nat := 0o7102

/-- `KeyBufSize` from console.c: the keyboard ring holds 50 cells. -/
def KeyBufSize : Nat := 50

/-- Modelled from the spec: the font and screen-offset constants live in
const.h, which is not among the sources.  The claims depend only on the
fonts being distinct; the offsets separate the two logical screens. -/
def FontDot : Nat := 0
def FontSmall : Nat := 1
def FontMedium : Nat := 2
def FontLarge : Nat := 3
def OffLeftScreen : Nat := 0
def OffRightScreen : Nat := 0o1000

/-- The keyboard ring buffer of console.c: the 50-cell `keyRing` array, the
producer index `keyIn`, the consumer index `keyOut`, and `consoleGetKey`'s
static throttle counter `keyloops` (a `u64`). -/
structure KeyRing where
  ring : List Nat
  keyIn : Nat
  keyOut : Nat
  keyloops : Nat
deriving DecidableEq

/-- The ring as first initialised: all cells zero, both indices zero. -/
def initKeyRing : KeyRing :=
  { ring := List.replicate KeyBufSize 0, keyIn := 0, keyOut := 0, keyloops := 0 }

/-- `consoleQueueKey` from console.c: advance a tentative producer index
with wrap-around; unless that would collide with the consumer index (ring
full), store the character and commit the index.  On a full ring the newest
character is dropped. -/
def consoleQueueKey (k : KeyRing) (ch : Nat) : KeyRing :=
  let nextin := if k.keyIn + 1 = KeyBufSize then 0 else k.keyIn + 1
  if nextin ≠ k.keyOut then
    { k with ring := k.ring.set k.keyIn (ch % 256), keyIn := nextin }
  else k

/-- `consoleGetKey` from console.c: an empty ring answers 0 at once;
otherwise the static counter is incremented (64-bit) and the next key is
delivered, and the consumer index advanced, only when the incremented
counter is 1 modulo 3. -/
def consoleGetKey (k : KeyRing) : Nat × KeyRing :=
  if k.keyIn = k.keyOut then (0, k)
  else
    let loops := (k.keyloops + 1) % 18446744073709551616
    if loops % 3 ≠ 1 then (0, { k with keyloops := loops })
    else
      let nextout := if k.keyOut + 1 = KeyBufSize then 0 else k.keyOut + 1
      (k.ring.getD k.keyOut 0, { k with keyloops := loops, keyOut := nextout })

/-- One producer or consumer access to the keyboard ring. -/
inductive KeyOp where
  | queue (ch : Nat)
  | get
deriving DecidableEq

/-- Apply one ring access. -/
def keyStep (k : KeyRing) : KeyOp → KeyRing
  | KeyOp.queue ch => consoleQueueKey k ch
  | KeyOp.get => (consoleGetKey k).2

/-- Run a sequence of ring accesses. -/
def keyRun (k : KeyRing) : List KeyOp → KeyRing
  | [] => k
  | op :: ops => keyRun (keyStep k op) ops

/-- The ring's occupancy: entries queued but not yet consumed. -/
def keyOccupancy (k : KeyRing) : Nat :=
  (k.keyIn + KeyBufSize - k.keyOut) % KeyBufSize

/-- An effect sent to the windowing/screen abstraction by the console. -/
inductive ScreenEvt where
  | setFont (font : Nat)
  | setX (x : Nat)
  | setY (y : Nat)
  | queueCh (ch : Nat)
  | getChar
  | update
deriving DecidableEq

/-- Read-only collaborators of the console I/O path: the character tables
(from const.c, not among the sources, so kept as function parameters -- no
claim constrains their entries), the configured autodate pattern and year
prefix, the wall-clock string `strftime` produces for the pattern
`yymmdd NL hhmmss NL`, and the host key the window layer last delivered. -/
structure ConsoleEnv where
  asciiToCdc : Nat → Nat
  asciiToConsole : Nat → Nat
  consoleToAscii : Nat → Nat
  autoDateString : List Nat
  autoYearString : List Nat
  timeStr : List Nat
  hostKey : Nat

/-- Mutable console state: the current font and screen offset, the
disconnect-refresh flag, the keyboard ring, the autodate state machine, the
device slot's latched code, the active channel, and the ordered effects
sent to the screen abstraction. -/
structure ConsoleState where
  currentFont : Nat
  currentOffset : Nat
  emptyDrop : Bool
  keys : KeyRing
  autoDate : Bool
  autoPos : Nat
  fcode : Nat
  chData : Nat
  chFull : Bool
  chStatus : Nat
  ppKeyIn : Nat
  screen : List ScreenEvt

/-- Append one effect for the screen abstraction. -/
def conEmit (s : ConsoleState) (e : ScreenEvt) : ConsoleState :=
  { s with screen := s.screen ++ [e] }

/-- The recognized 6612 function codes, in the order of the source switch. -/
def console6612Codes : List Nat :=
  [Fc6612Sel512DotsLeft, Fc6612Sel512DotsRight,
   Fc6612Sel64CharLeft, Fc6612Sel32CharLeft, Fc6612Sel16CharLeft,
   Fc6612Sel64CharRight, Fc6612Sel32CharRight, Fc6612Sel16CharRight,
   Fc6612SelKeyIn]

/-- The font/offset chosen by a select code. -/
def consoleSelect (s : ConsoleState) (font offset : Nat) : ConsoleState :=
  conEmit { s with currentFont := font, currentOffset := offset }
    (ScreenEvt.setFont font)

/-- `consoleFunc` from console.c: the channel's `full` flag is dropped
before dispatching; a recognized select code updates font and offset,
notifies the window layer and is latched; anything else is declined. -/
def consoleFunc (s : ConsoleState) (funcCode : Nat) : FcStatus × ConsoleState :=
  let s := { s with chFull := false }
  if funcCode = Fc6612Sel512DotsLeft then
    (FcStatus.accepted, { consoleSelect s FontDot OffLeftScreen with fcode := funcCode })
  else if funcCode = Fc6612Sel512DotsRight then
    (FcStatus.accepted, { consoleSelect s FontDot OffRightScreen with fcode := funcCode })
  else if funcCode = Fc6612Sel64CharLeft then
    (FcStatus.accepted, { consoleSelect s FontSmall OffLeftScreen with fcode := funcCode })
  else if funcCode = Fc6612Sel32CharLeft then
    (FcStatus.accepted, { consoleSelect s FontMedium OffLeftScreen with fcode := funcCode })
  else if funcCode = Fc6612Sel16CharLeft then
    (FcStatus.accepted, { consoleSelect s FontLarge OffLeftScreen with fcode := funcCode })
  else if funcCode = Fc6612Sel64CharRight then
    (FcStatus.accepted, { consoleSelect s FontSmall OffRightScreen with fcode := funcCode })
  else if funcCode = Fc6612Sel32CharRight then
    (FcStatus.accepted, { consoleSelect s FontMedium OffRightScreen with fcode := funcCode })
  else if funcCode = Fc6612Sel16CharRight then
    (FcStatus.accepted, { consoleSelect s FontLarge OffRightScreen with fcode := funcCode })
  else if funcCode = Fc6612SelKeyIn then
    (FcStatus.accepted, { s with fcode := funcCode })
  else (FcStatus.declined, s)

/-- The two-character compare of the autodate matcher: medium font on
either screen, and the data word's two display codes equal the next two
pattern characters (read through `asciiToCdc`, NUL past the pattern end). -/
def autoMatches (env : ConsoleEnv) (s : ConsoleState) : Prop :=
  (s.fcode = Fc6612Sel32CharLeft ∨ s.fcode = Fc6612Sel32CharRight) ∧
  (s.chData >>> 6) &&& 0o77 = env.asciiToCdc (env.autoDateString.getD s.autoPos 0) ∧
  s.chData &&& 0o77 = env.asciiToCdc (env.autoDateString.getD (s.autoPos + 1) 0)

instance (env : ConsoleEnv) (s : ConsoleState) : Decidable (autoMatches env s) := by
  unfold autoMatches
  infer_instance

/-- Whether the match just consumed the end of the pattern: the source
tests `autoDateString` for a NUL at `autoPos + 1` or `autoPos + 2`. -/
def autoAtEnd (env : ConsoleEnv) (s : ConsoleState) : Prop :=
  env.autoDateString.getD (s.autoPos + 1) 0 = 0 ∨
  env.autoDateString.getD (s.autoPos + 2) 0 = 0

instance (env : ConsoleEnv) (s : ConsoleState) : Decidable (autoAtEnd env s) := by
  unfold autoAtEnd
  infer_instance

/-- The bytes the autodate injector types: the `strftime` text with its
first two characters overridden by the year prefix, cut at the first NUL
(the C loop walks the buffer to its terminator). -/
def autoInjectBytes (env : ConsoleEnv) : List Nat :=
  (env.autoYearString.getD 0 0 :: env.autoYearString.getD 1 0 ::
    env.timeStr.drop 2).takeWhile (· ≠ 0)

/-- Queue the injected bytes, each mapped through `asciiToConsole`. -/
def autoInject (env : ConsoleEnv) (k : KeyRing) : KeyRing :=
  (autoInjectBytes env).foldl (fun r b => consoleQueueKey r (env.asciiToConsole b)) k

/-- The autodate block of `consoleIo`, run on every full word in a
character font while `autoDate` is enabled. -/
def consoleAutoDate (env : ConsoleEnv) (s : ConsoleState) : ConsoleState :=
  if autoMatches env s then
    if autoAtEnd env s then
      let s := { s with autoDate := false }
      if s.keys.keyOut = s.keys.keyIn then
        { s with keys := autoInject env s.keys }
      else s
    else { s with autoPos := s.autoPos + 2 }
  else { s with autoPos := 0 }

/-- The character-font `io` arm of console.c: drop `emptyDrop`, interpret
the word as a coordinate (high six bits at least 0o60) or as two display
characters for the screen, run the autodate matcher when enabled, and
drain the channel. -/
def consoleIoChar (env : ConsoleEnv) (s : ConsoleState) : ConsoleState :=
  if s.chFull then
    let s := { s with emptyDrop := false }
    let ch := (s.chData >>> 6) &&& 0o77
    let s :=
      if ch ≥ 0o60 then
        if ch ≥ 0o70 then conEmit s (ScreenEvt.setY (s.chData &&& 0o777))
        else conEmit s (ScreenEvt.setX ((s.chData &&& 0o777) + s.currentOffset))
      else
        conEmit (conEmit s (ScreenEvt.queueCh (env.consoleToAscii ch)))
          (ScreenEvt.queueCh (env.consoleToAscii (s.chData &&& 0o77)))
    let s := if s.autoDate then consoleAutoDate env s else s
    { s with chFull := false }
  else s

/-- The dot-font `io` arm of console.c: coordinates only, with a dot queued
on each vertical coordinate. -/
def consoleIoDots (s : ConsoleState) : ConsoleState :=
  if s.chFull then
    let s := { s with emptyDrop := false }
    let ch := (s.chData >>> 6) &&& 0o77
    let s :=
      if ch ≥ 0o60 then
        if ch ≥ 0o70 then
          conEmit (conEmit s (ScreenEvt.setY (s.chData &&& 0o777)))
            (ScreenEvt.queueCh 46)
        else conEmit s (ScreenEvt.setX ((s.chData &&& 0o777) + s.currentOffset))
      else s
    { s with chFull := false }
  else s

/-- The `SelKeyIn` `io` arm of console.c: poll the window layer, answer the
mapped host key or, when that is zero, the next ring key; fill the channel
and unlatch. -/
def consoleIoKeyIn (env : ConsoleEnv) (s : ConsoleState) : ConsoleState :=
  let s := conEmit { s with ppKeyIn := env.hostKey } ScreenEvt.getChar
  let d := env.asciiToConsole s.ppKeyIn
  let (d, keys) := if d = 0 then consoleGetKey s.keys else (d, s.keys)
  { s with chData := d, keys := keys, chFull := true, chStatus := 0,
           fcode := 0, ppKeyIn := 0 }

/-- `consoleIo` from console.c: dispatch on the latched function code. -/
def consoleIo (env : ConsoleEnv) (s : ConsoleState) : ConsoleState :=
  if s.fcode = Fc6612Sel64CharLeft ∨ s.fcode = Fc6612Sel32CharLeft ∨
      s.fcode = Fc6612Sel16CharLeft ∨ s.fcode = Fc6612Sel64CharRight ∨
      s.fcode = Fc6612Sel32CharRight ∨ s.fcode = Fc6612Sel16CharRight then
    consoleIoChar env s
  else if s.fcode = Fc6612Sel512DotsLeft ∨ s.fcode = Fc6612Sel512DotsRight then
    consoleIoDots s
  else if s.fcode = Fc6612SelKeyIn then
    consoleIoKeyIn env s
  else s

/-! ## Paper removal (lp3000RemovePaper / lp1612RemovePaper)

The operator-facing paper-removal commands are modelled over an abstract
filesystem view: the device slot's capture-file handle and its position,
plus a trace of the filesystem actions taken. -/

/-- One observable action of a paper-removal run. -/
inductive PaperEvt where
  | log
  | flush
  | close
  | renameAttempt (suffix : Nat)
  | reopen
deriving DecidableEq

/-- The slot fields paper removal touches: whether `fcb[0]` is non-null and
the capture file's current position (`ftell`). -/
structure RpState where
  fcb : Bool
  filePos : Nat
deriving DecidableEq

/-- The archive-rename loop: up to 100 timestamped suffixes are tried,
stopping at the first success; each failure is logged.  `renameOk` tells
which attempt succeeds (the wall clock is re-read between attempts). -/
def renameAttempts (renameOk : Nat → Bool) : Nat → Nat → List PaperEvt
  | _, 0 => []
  | i, fuel + 1 =>
    if renameOk i then [PaperEvt.renameAttempt i]
    else PaperEvt.renameAttempt i :: PaperEvt.log ::
      renameAttempts renameOk (i + 1) fuel

/-- `lp3000RemovePaper` from lp3000.c over the abstract view: validate the
parameters and locate the slot (the boolean parameters carry the outcome of
`sscanf`, the channel and equipment range checks and `dcc6681FindDevice`);
flush; abort with a log line when nothing was written; otherwise close,
archive under a timestamped name and reopen the file truncated. -/
def lp3000RemovePaper (paramsOk channelOk equipOk found : Bool)
    (renameOk : Nat → Bool) (reopenOk : Bool) (st : RpState) :
    RpState × List PaperEvt :=
  if paramsOk = false then (st, [PaperEvt.log])
  else if channelOk = false then (st, [PaperEvt.log])
  else if equipOk = false then (st, [PaperEvt.log])
  else if found = false then (st, [])
  else if st.fcb = false then (st, [PaperEvt.log])
  else if st.filePos = 0 then (st, [PaperEvt.flush, PaperEvt.log])
  else
    let evts := [PaperEvt.flush, PaperEvt.close] ++
      renameAttempts renameOk 0 100 ++ [PaperEvt.reopen]
    if reopenOk then
      ({ fcb := true, filePos := 0 }, evts ++ [PaperEvt.log])
    else ({ fcb := false, filePos := 0 }, evts ++ [PaperEvt.log])

/-- `lp1612RemovePaper` from lp1612.c over the abstract view: identical
control flow to `lp3000RemovePaper` (the device lookup goes through
`channelFindDevice` and the archive name drops the `.txt` suffix, neither
of which is observable in this view). -/
def lp1612RemovePaper (paramsOk channelOk equipOk found : Bool)
    (renameOk : Nat → Bool) (reopenOk : Bool) (st : RpState) :
    RpState × List PaperEvt :=
  if paramsOk = false then (st, [PaperEvt.log])
  else if channelOk = false then (st, [PaperEvt.log])
  else if equipOk = false then (st, [PaperEvt.log])
  else if found = false then (st, [])
  else if st.fcb = false then (st, [PaperEvt.log])
  else if st.filePos = 0 then (st, [PaperEvt.flush, PaperEvt.log])
  else
    let evts := [PaperEvt.flush, PaperEvt.close] ++
      renameAttempts renameOk 0 100 ++ [PaperEvt.reopen]
    if reopenOk then
      ({ fcb := true, filePos := 0 }, evts ++ [PaperEvt.log])
    else ({ fcb := false, filePos := 0 }, evts ++ [PaperEvt.log])

/-- The latched-interrupt/enable coupling of claim C3, on a flag word: a
latched interrupt bit is set only while its paired enable bit is set. -/
def lp3000IntLatchInv (f : Nat) : Prop :=
  (f &&& Lp3000IntReady ≠ 0 → f &&& Lp3000IntReadyEna ≠ 0) ∧
  (f &&& Lp3000IntEnd ≠ 0 → f &&& Lp3000IntEndEna ≠ 0)

/-- The op sequence exhibiting claim C4's counterexample state: an output
transfer with no interrupt enabled, one data word, disconnect.  It leaves
`keepInt` set while `IntReady` is clear. -/
def c4CexOps : List Lp3000Op :=
  [Lp3000Op.func Fc6681Output, Lp3000Op.ppPut 1, Lp3000Op.io,
   Lp3000Op.disconnect]

/-! ## Helper lemmas: single bits of 12-bit flag words -/

theorem testBit_4095 (i : Nat) : (4095 : Nat).testBit i = decide (i < 12) := by
  have h : (4095 : Nat) = 2 ^ 12 - 1 := by norm_num
  rw [h, Nat.testBit_two_pow_sub_one]

theorem testBit_clearBits (f m i : Nat) (h : i < 12) :
    (clearBits f m).testBit i = (f.testBit i && !m.testBit i) := by
  unfold clearBits
  rw [Nat.testBit_and, Nat.testBit_xor, testBit_4095]
  simp [h]

theorem flagTest (x m k : Nat) (hm : m = 2 ^ k) :
    x &&& m ≠ 0 ↔ x.testBit k = true := by
  subst hm
  constructor
  · intro h
    by_contra hb
    apply h
    apply Nat.eq_of_testBit_eq
    intro i
    rw [Nat.zero_testBit, Nat.testBit_and, Nat.testBit_two_pow]
    rcases eq_or_ne k i with rfl | hki
    · simp_all
    · simp [hki]
  · intro h hz
    have h2 : (x &&& 2 ^ k).testBit k = false := by
      rw [hz]; exact Nat.zero_testBit k
    rw [Nat.testBit_and, Nat.testBit_two_pow] at h2
    simp [h] at h2

theorem testBitLit1 (m k : Nat) (hm : m = 2 ^ k) (i : Nat) :
    m.testBit i = decide (k = i) := by
  subst hm; exact Nat.testBit_two_pow

theorem tbReady : ∀ i, Lp3000IntReady.testBit i = decide (7 = i) :=
  testBitLit1 _ 7 (by decide)

theorem tbEnd : ∀ i, Lp3000IntEnd.testBit i = decide (8 = i) :=
  testBitLit1 _ 8 (by decide)

theorem tbReadyEna : ∀ i, Lp3000IntReadyEna.testBit i = decide (10 = i) :=
  testBitLit1 _ 10 (by decide)

theorem tbEndEna : ∀ i, Lp3000IntEndEna.testBit i = decide (11 = i) :=
  testBitLit1 _ 11 (by decide)

theorem tbStReady : ∀ i, StPrintIntReady.testBit i = decide (7 = i) :=
  testBitLit1 _ 7 (by decide)

theorem tbStEnd : ∀ i, StPrintIntEnd.testBit i = decide (8 = i) :=
  testBitLit1 _ 8 (by decide)

theorem tbFill : ∀ i, Lp3555FillImageMem.testBit i = decide (6 = i) :=
  testBitLit1 _ 6 (by decide)

theorem tbStPrintReady : ∀ i, StPrintReady.testBit i = decide (0 = i) :=
  testBitLit1 _ 0 (by decide)

theorem lp3000IntLatchInv_iff (f : Nat) :
    lp3000IntLatchInv f ↔
      ((f.testBit 7 = true → f.testBit 10 = true) ∧
       (f.testBit 8 = true → f.testBit 11 = true)) := by
  unfold lp3000IntLatchInv
  rw [flagTest f Lp3000IntReady 7 (by decide),
      flagTest f Lp3000IntReadyEna 10 (by decide),
      flagTest f Lp3000IntEnd 8 (by decide),
      flagTest f Lp3000IntEndEna 11 (by decide)]

/-! ## Helper lemmas: each lp3000 operation preserves the interrupt
latch/enable coupling. -/

theorem intInv_clearLatched (f : Nat) :
    lp3000IntLatchInv (clearBits f (StPrintIntReady ||| StPrintIntEnd)) := by
  rw [lp3000IntLatchInv_iff]
  simp [testBit_clearBits, Nat.testBit_or, tbStReady, tbStEnd]

theorem intInv_release (s : Lp3000State) :
    lp3000IntLatchInv ((lp3000Release s).lc.flags) := by
  simp only [lp3000Release]
  split <;> exact intInv_clearLatched s.lc.flags

theorem intInv_outputFlags (f : Nat) :
    lp3000IntLatchInv (lp3000OutputFlags f) := by
  unfold lp3000OutputFlags
  simp only []
  split <;> split <;>
    rename_i h1 h2 <;>
    rw [lp3000IntLatchInv_iff] <;>
    rw [flagTest _ Lp3000IntReadyEna 10 (by decide)] at h1 <;>
    rw [flagTest _ Lp3000IntEndEna 11 (by decide)] at h2 <;>
    simp_all [Nat.testBit_or, tbReady, tbEnd, tbReadyEna, tbEndEna,
      testBit_clearBits, tbStReady, tbStEnd]

theorem intInv_funcOutput (s : Lp3000State) :
    lp3000IntLatchInv ((lp3000FuncOutput s).2.lc.flags) := by
  show lp3000IntLatchInv (lp3000OutputFlags
    (if s.lc.flags &&& Lp3555FillImageMem ≠ 0 then
      clearBits s.lc.flags Lp3555FillImageMem else s.lc.flags))
  split <;> exact intInv_outputFlags _

theorem intInv_selIntReady (s : Lp3000State) (h : lp3000IntLatchInv s.lc.flags) :
    lp3000IntLatchInv ((lp3000SelIntReady s).lc.flags) := by
  unfold lp3000SelIntReady
  rw [lp3000IntLatchInv_iff] at h
  split <;>
    rw [lp3000IntLatchInv_iff] <;>
    simp [testBit_clearBits, Nat.testBit_or, tbReady, tbReadyEna] <;>
    tauto

theorem intInv_relIntReady (s : Lp3000State) (h : lp3000IntLatchInv s.lc.flags) :
    lp3000IntLatchInv ((lp3000RelIntReady s).lc.flags) := by
  unfold lp3000RelIntReady
  rw [lp3000IntLatchInv_iff] at h
  rw [lp3000IntLatchInv_iff]
  simp [testBit_clearBits, Nat.testBit_or, tbReady, tbReadyEna]
  tauto

theorem intInv_selIntEnd (s : Lp3000State) (h : lp3000IntLatchInv s.lc.flags) :
    lp3000IntLatchInv ((lp3000SelIntEnd s).lc.flags) := by
  unfold lp3000SelIntEnd
  rw [lp3000IntLatchInv_iff] at h
  split <;>
    rw [lp3000IntLatchInv_iff] <;>
    simp [testBit_clearBits, Nat.testBit_or, tbEnd, tbEndEna] <;>
    tauto

theorem intInv_relIntEnd (s : Lp3000State) (h : lp3000IntLatchInv s.lc.flags) :
    lp3000IntLatchInv ((lp3000RelIntEnd s).lc.flags) := by
  unfold lp3000RelIntEnd
  rw [lp3000IntLatchInv_iff] at h
  rw [lp3000IntLatchInv_iff]
  simp [testBit_clearBits, Nat.testBit_or, tbEnd, tbEndEna]
  tauto

theorem intInv_orFill (f : Nat) (h : lp3000IntLatchInv f) :
    lp3000IntLatchInv (f ||| Lp3555FillImageMem) := by
  rw [lp3000IntLatchInv_iff] at h ⊢
  simp [Nat.testBit_or, tbFill]
  tauto

theorem intInv_masterClear (s : Lp3000State) (h : lp3000IntLatchInv s.lc.flags) :
    lp3000IntLatchInv ((lp3000MasterClear s).lc.flags) := by
  simp only [lp3000MasterClear, lpEmit]
  split <;> exact h

theorem intInv_funcSingle (s : Lp3000State) (h : lp3000IntLatchInv s.lc.flags) :
    lp3000IntLatchInv ((lp3000FuncSingle s).lc.flags) := by
  simp only [lp3000FuncSingle, lpEmit]
  split <;> first | exact h | (split <;> exact h)

theorem intInv_funcDouble (s : Lp3000State) (h : lp3000IntLatchInv s.lc.flags) :
    lp3000IntLatchInv ((lp3000FuncDouble s).lc.flags) := by
  simp only [lp3000FuncDouble, lpEmit]
  split <;> first | exact h | (split <;> exact h)

theorem intInv_funcLastLine (s : Lp3000State) (h : lp3000IntLatchInv s.lc.flags) :
    lp3000IntLatchInv ((lp3000FuncLastLine s).lc.flags) := by
  simp only [lp3000FuncLastLine, lpEmit]
  split <;> exact h

theorem intInv_funcEject (s : Lp3000State) (h : lp3000IntLatchInv s.lc.flags) :
    lp3000IntLatchInv ((lp3000FuncEject s).lc.flags) := by
  simp only [lp3000FuncEject, lpEmit]
  split <;> exact h

theorem lp3000MasterClear_fcbOpen (s : Lp3000State) :
    (lp3000MasterClear s).fcbOpen = s.fcbOpen := by
  simp only [lp3000MasterClear, lpEmit]
  split <;> rfl

theorem lp3000Release_fcbOpen (s : Lp3000State) :
    (lp3000Release s).fcbOpen = s.fcbOpen := by
  simp only [lp3000Release]
  split <;> rfl

theorem lp3000FuncSingle_fcbOpen (s : Lp3000State) :
    (lp3000FuncSingle s).fcbOpen = s.fcbOpen := by
  simp only [lp3000FuncSingle, lpEmit]
  split <;> first | rfl | (split <;> rfl)

theorem lp3000FuncDouble_fcbOpen (s : Lp3000State) :
    (lp3000FuncDouble s).fcbOpen = s.fcbOpen := by
  simp only [lp3000FuncDouble, lpEmit]
  split <;> first | rfl | (split <;> rfl)

theorem lp3000FuncLastLine_fcbOpen (s : Lp3000State) :
    (lp3000FuncLastLine s).fcbOpen = s.fcbOpen := by
  simp only [lp3000FuncLastLine, lpEmit]
  split <;> rfl

theorem lp3000FuncEject_fcbOpen (s : Lp3000State) :
    (lp3000FuncEject s).fcbOpen = s.fcbOpen := by
  simp only [lp3000FuncEject, lpEmit]
  split <;> rfl

theorem lp3000Func_frame (s : Lp3000State) (code : Nat) :
    (lp3000Func s code).2.fcbOpen = s.fcbOpen ∧
    (lp3000IntLatchInv s.lc.flags →
      lp3000IntLatchInv ((lp3000Func s code).2.lc.flags)) := by
  unfold lp3000Func
  by_cases h0 : s.fcbOpen = false
  · rw [if_pos h0]; exact ⟨rfl, fun hI => hI⟩
  rw [if_neg h0]
  by_cases h1 : code = FcPrintNoSpace
  · rw [if_pos h1]; exact ⟨rfl, fun hI => hI⟩
  rw [if_neg h1]
  by_cases h2 : code = FcPrintAutoEject
  · rw [if_pos h2]; exact ⟨rfl, fun hI => hI⟩
  rw [if_neg h2]
  by_cases h3 : code = Fc6681MasterClear
  · rw [if_pos h3]
    exact ⟨lp3000MasterClear_fcbOpen s, fun hI => intInv_masterClear s hI⟩
  rw [if_neg h3]
  by_cases h4 : code = FcPrintRelease
  · rw [if_pos h4]
    exact ⟨lp3000Release_fcbOpen s, fun _ => intInv_release s⟩
  rw [if_neg h4]
  by_cases h5 : code = FcPrintSingle
  · rw [if_pos h5]
    exact ⟨lp3000FuncSingle_fcbOpen s, fun hI => intInv_funcSingle s hI⟩
  rw [if_neg h5]
  by_cases h6 : code = FcPrintLastLine
  · rw [if_pos h6]
    exact ⟨lp3000FuncLastLine_fcbOpen s, fun hI => intInv_funcLastLine s hI⟩
  rw [if_neg h6]
  by_cases h7 : code = FcPrintEject
  · rw [if_pos h7]
    exact ⟨lp3000FuncEject_fcbOpen s, fun hI => intInv_funcEject s hI⟩
  rw [if_neg h7]
  by_cases h8 : code = FcPrintDouble
  · rw [if_pos h8]
    exact ⟨lp3000FuncDouble_fcbOpen s, fun hI => intInv_funcDouble s hI⟩
  rw [if_neg h8]
  by_cases h9 : code = Fc6681Output
  · rw [if_pos h9]
    exact ⟨rfl, fun _ => intInv_funcOutput s⟩
  rw [if_neg h9]
  by_cases h10 : code = Fc6681DevStatusReq
  · rw [if_pos h10]; exact ⟨rfl, fun hI => hI⟩
  rw [if_neg h10]
  by_cases h11 : s.lc.flags &&& Lp3000Type3555 ≠ 0
  · rw [if_pos h11]
    by_cases a1 : code = Fc3555CondClearFormat
    · rw [if_pos a1]; exact ⟨rfl, fun hI => hI⟩
    rw [if_neg a1]
    by_cases a2 : code = Fc3555Sel8Lpi
    · rw [if_pos a2]; exact ⟨rfl, fun hI => hI⟩
    rw [if_neg a2]
    by_cases a3 : code = Fc3555Sel6Lpi
    · rw [if_pos a3]; exact ⟨rfl, fun hI => hI⟩
    rw [if_neg a3]
    by_cases a4 : code = Fc3555SelExtArray ∨ code = Fc3555ClearExtArray ∨
        code = Fc3555SelIntError ∨ code = Fc3555RelIntError ∨
        code = Fc3555ReloadMemEnable
    · rw [if_pos a4]; exact ⟨rfl, fun hI => hI⟩
    rw [if_neg a4]
    by_cases a5 : code = Fc3555ClearFormat
    · rw [if_pos a5]; exact ⟨rfl, fun hI => hI⟩
    rw [if_neg a5]
    by_cases a6 : Fc3555PostVFU1 ≤ code ∧ code ≤ Fc3555PostVFU12
    · rw [if_pos a6]; exact ⟨rfl, fun hI => hI⟩
    rw [if_neg a6]
    by_cases a7 : code = Fc3555SelectPreprint
    · rw [if_pos a7]; exact ⟨rfl, fun hI => hI⟩
    rw [if_neg a7]
    by_cases a8 : (Fc3555PreVFU1 ≤ code ∧ code ≤ Fc3555PreVFU12) ∨
        code = Fc3555MaintStatus ∨ code = Fc3555ClearMaint
    · rw [if_pos a8]; exact ⟨rfl, fun hI => hI⟩
    rw [if_neg a8]
    by_cases a9 : code = Fc3555FillMemory
    · rw [if_pos a9]; exact ⟨rfl, fun hI => intInv_orFill s.lc.flags hI⟩
    rw [if_neg a9]
    by_cases a10 : code = Fc3555SelIntReady
    · rw [if_pos a10]; exact ⟨rfl, fun hI => intInv_selIntReady s hI⟩
    rw [if_neg a10]
    by_cases a11 : code = Fc3555RelIntReady
    · rw [if_pos a11]; exact ⟨rfl, fun hI => intInv_relIntReady s hI⟩
    rw [if_neg a11]
    by_cases a12 : code = Fc3555SelIntEnd
    · rw [if_pos a12]; exact ⟨rfl, fun hI => intInv_selIntEnd s hI⟩
    rw [if_neg a12]
    by_cases a13 : code = Fc3555RelIntEnd
    · rw [if_pos a13]; exact ⟨rfl, fun hI => intInv_relIntEnd s hI⟩
    rw [if_neg a13]
    exact ⟨rfl, fun hI => hI⟩
  · rw [if_neg h11]
    by_cases b1 : code = Fc3152ClearFormat
    · rw [if_pos b1]; exact ⟨rfl, fun hI => hI⟩
    rw [if_neg b1]
    by_cases b2 : Fc3152PostVFU1 ≤ code ∧ code ≤ Fc3152PostVFU6
    · rw [if_pos b2]; exact ⟨rfl, fun hI => hI⟩
    rw [if_neg b2]
    by_cases b3 : code = Fc3152SelectPreprint
    · rw [if_pos b3]; exact ⟨rfl, fun hI => hI⟩
    rw [if_neg b3]
    by_cases b4 : (Fc3152PreVFU1 ≤ code ∧ code ≤ Fc3152PreVFU6) ∨
        code = Fc3152SelIntError ∨ code = Fc3152RelIntError ∨
        code = Fc3152Release2
    · rw [if_pos b4]; exact ⟨rfl, fun hI => hI⟩
    rw [if_neg b4]
    by_cases b5 : code = Fc3152SelIntReady
    · rw [if_pos b5]; exact ⟨rfl, fun hI => intInv_selIntReady s hI⟩
    rw [if_neg b5]
    by_cases b6 : code = Fc3152RelIntReady
    · rw [if_pos b6]; exact ⟨rfl, fun hI => intInv_relIntReady s hI⟩
    rw [if_neg b6]
    by_cases b7 : code = Fc3152SelIntEnd
    · rw [if_pos b7]; exact ⟨rfl, fun hI => intInv_selIntEnd s hI⟩
    rw [if_neg b7]
    by_cases b8 : code = Fc3152RelIntEnd
    · rw [if_pos b8]; exact ⟨rfl, fun hI => intInv_relIntEnd s hI⟩
    rw [if_neg b8]
    exact ⟨rfl, fun hI => hI⟩

theorem lp3000Io_flags (s : Lp3000State) :
    (lp3000Io s).lc.flags = s.lc.flags := by
  unfold lp3000Io
  repeat' split
  all_goals rfl

theorem lp3000Io_fcbOpen (s : Lp3000State) :
    (lp3000Io s).fcbOpen = s.fcbOpen := by
  unfold lp3000Io
  repeat' split
  all_goals rfl

theorem lp3000Disconnect_flags (s : Lp3000State) :
    (lp3000Disconnect s).lc.flags = s.lc.flags := by
  unfold lp3000Disconnect lpEmit
  repeat' split
  all_goals rfl

theorem lp3000Disconnect_fcbOpen (s : Lp3000State) :
    (lp3000Disconnect s).fcbOpen = s.fcbOpen := by
  unfold lp3000Disconnect lpEmit
  repeat' split
  all_goals rfl

theorem intInv_step (s : Lp3000State) (op : Lp3000Op)
    (h : lp3000IntLatchInv s.lc.flags) :
    lp3000IntLatchInv ((lp3000Step s op).lc.flags) := by
  cases op with
  | func c => exact (lp3000Func_frame s c).2 h
  | io => rw [lp3000Step, lp3000Io_flags]; exact h
  | disconnect => rw [lp3000Step, lp3000Disconnect_flags]; exact h
  | ppPut d => exact h

theorem intInv_run (s : Lp3000State) (ops : List Lp3000Op)
    (h : lp3000IntLatchInv s.lc.flags) :
    lp3000IntLatchInv ((lp3000Run s ops).lc.flags) := by
  induction ops generalizing s with
  | nil => exact h
  | cons op ops ih => exact ih _ (intInv_step s op h)

theorem lp3000Step_fcbOpen (s : Lp3000State) (op : Lp3000Op)
    (h : s.fcbOpen = true) : (lp3000Step s op).fcbOpen = true := by
  cases op with
  | func c =>
    show (lp3000Func s c).2.fcbOpen = true
    rw [(lp3000Func_frame s c).1]; exact h
  | io =>
    show (lp3000Io s).fcbOpen = true
    rw [lp3000Io_fcbOpen]; exact h
  | disconnect =>
    show (lp3000Disconnect s).fcbOpen = true
    rw [lp3000Disconnect_fcbOpen]; exact h
  | ppPut d => exact h

theorem lp3000Run_fcbOpen (s : Lp3000State) (ops : List Lp3000Op)
    (h : s.fcbOpen = true) : (lp3000Run s ops).fcbOpen = true := by
  induction ops generalizing s with
  | nil => exact h
  | cons op ops ih => exact ih _ (lp3000Step_fcbOpen s op h)

theorem flagTestZero (x m k : Nat) (hm : m = 2 ^ k) :
    x &&& m = 0 ↔ x.testBit k = false := by
  have h := flagTest x m k hm
  constructor
  · intro h0
    cases hb : x.testBit k with
    | false => rfl
    | true => exact absurd h0 (by simpa [hb] using h.mpr hb)
  · intro hb
    by_contra h0
    exact absurd (h.mp h0) (by simp [hb])

theorem intInv_init (typeFlags : Nat) (h : typeFlags < 64) (useANSI : Bool) :
    lp3000IntLatchInv ((lp3000InitState typeFlags useANSI).lc.flags) := by
  show lp3000IntLatchInv typeFlags
  rw [lp3000IntLatchInv_iff]
  have h7 : typeFlags.testBit 7 = false :=
    Nat.testBit_lt_two_pow (by omega)
  have h8 : typeFlags.testBit 8 = false :=
    Nat.testBit_lt_two_pow (by omega)
  simp [h7, h8]

theorem statusExposure (f : Nat) (hInv : lp3000IntLatchInv f) :
    ((StPrintReady ||| (f &&& (StPrintIntReady ||| StPrintIntEnd))) &&&
        Lp3000IntReady ≠ 0 → f &&& Lp3000IntReadyEna ≠ 0) ∧
    ((StPrintReady ||| (f &&& (StPrintIntReady ||| StPrintIntEnd))) &&&
        Lp3000IntEnd ≠ 0 → f &&& Lp3000IntEndEna ≠ 0) := by
  rw [lp3000IntLatchInv_iff] at hInv
  rw [flagTest _ Lp3000IntReady 7 (by decide),
      flagTest _ Lp3000IntEnd 8 (by decide),
      flagTest _ Lp3000IntReadyEna 10 (by decide),
      flagTest _ Lp3000IntEndEna 11 (by decide)]
  simp [Nat.testBit_or, Nat.testBit_and, tbStPrintReady, tbStReady, tbStEnd]
  tauto

theorem lp3000Io_statusReply (s : Lp3000State) (h1 : s.fcbOpen = true)
    (h2 : s.fcode = Fc6681DevStatusReq) :
    (lp3000Io s).chData =
      StPrintReady ||| (s.lc.flags &&& (StPrintIntReady ||| StPrintIntEnd)) := by
  unfold lp3000Io
  rw [h2]
  rw [if_neg (by simp [h1]), if_neg (by decide), if_neg (by decide),
      if_pos rfl]

/-- Claim C3: for every state of the 3000-series printer context reachable
by any sequence of func/io/disconnect operations (with the executive free to
place channel words in between) from the initial state, a latched interrupt
bit (IntReady or IntEnd) is set only while its paired enable bit is set, and
consequently a DevStatusReq I/O cycle can expose a latched interrupt bit in
the channel data only while the corresponding enable is on. -/
theorem lp3000_interrupt_latch_invariant (typeFlags : Nat) (useANSI : Bool)
    (ops : List Lp3000Op) (h : typeFlags < 64) :
    lp3000IntLatchInv
      ((lp3000Run (lp3000InitState typeFlags useANSI) ops).lc.flags) ∧
    ((lp3000Run (lp3000InitState typeFlags useANSI) ops).fcode =
        Fc6681DevStatusReq →
      ((lp3000Io (lp3000Run (lp3000InitState typeFlags useANSI) ops)).chData &&&
          Lp3000IntReady ≠ 0 →
        (lp3000Run (lp3000InitState typeFlags useANSI) ops).lc.flags &&&
          Lp3000IntReadyEna ≠ 0) ∧
      ((lp3000Io (lp3000Run (lp3000InitState typeFlags useANSI) ops)).chData &&&
          Lp3000IntEnd ≠ 0 →
        (lp3000Run (lp3000InitState typeFlags useANSI) ops).lc.flags &&&
          Lp3000IntEndEna ≠ 0)) := by
  have hInv := intInv_run (lp3000InitState typeFlags useANSI) ops
    (intInv_init typeFlags h useANSI)
  refine ⟨hInv, fun hfc => ?_⟩
  have hOpen := lp3000Run_fcbOpen (lp3000InitState typeFlags useANSI) ops rfl
  rw [lp3000Io_statusReply _ hOpen hfc]
  exact statusExposure _ hInv

/-- Witness for C3 at the 501/3555 printer, ASCII, the C4 scenario ops. -/
theorem lp3000_interrupt_latch_invariant_witness :
    lp3000IntLatchInv
      ((lp3000Run (lp3000InitState 0o21 false) c4CexOps).lc.flags) ∧
    ((lp3000Run (lp3000InitState 0o21 false) c4CexOps).fcode =
        Fc6681DevStatusReq →
      ((lp3000Io (lp3000Run (lp3000InitState 0o21 false) c4CexOps)).chData &&&
          Lp3000IntReady ≠ 0 →
        (lp3000Run (lp3000InitState 0o21 false) c4CexOps).lc.flags &&&
          Lp3000IntReadyEna ≠ 0) ∧
      ((lp3000Io (lp3000Run (lp3000InitState 0o21 false) c4CexOps)).chData &&&
          Lp3000IntEnd ≠ 0 →
        (lp3000Run (lp3000InitState 0o21 false) c4CexOps).lc.flags &&&
          Lp3000IntEndEna ≠ 0)) :=
  lp3000_interrupt_latch_invariant 0o21 false c4CexOps (by decide)

theorem consoleQueueKey_bounds (k : KeyRing) (ch : Nat)
    (hIn : k.keyIn < KeyBufSize) (hOut : k.keyOut < KeyBufSize) :
    (consoleQueueKey k ch).keyIn < KeyBufSize ∧
    (consoleQueueKey k ch).keyOut < KeyBufSize := by
  unfold consoleQueueKey KeyBufSize at *
  constructor <;> (repeat' (first | split | dsimp only | simp only [])) <;> omega

theorem consoleGetKey_bounds (k : KeyRing)
    (hIn : k.keyIn < KeyBufSize) (hOut : k.keyOut < KeyBufSize) :
    (consoleGetKey k).2.keyIn < KeyBufSize ∧
    (consoleGetKey k).2.keyOut < KeyBufSize := by
  unfold consoleGetKey KeyBufSize at *
  constructor <;> (repeat' (first | split | dsimp only | simp only [])) <;> omega

theorem keyRun_bounds (ops : List KeyOp) (k : KeyRing)
    (hIn : k.keyIn < KeyBufSize) (hOut : k.keyOut < KeyBufSize) :
    (keyRun k ops).keyIn < KeyBufSize ∧ (keyRun k ops).keyOut < KeyBufSize := by
  induction ops generalizing k with
  | nil => exact ⟨hIn, hOut⟩
  | cons op ops ih =>
    cases op with
    | queue ch =>
      have h := consoleQueueKey_bounds k ch hIn hOut
      exact ih _ h.1 h.2
    | get =>
      have h := consoleGetKey_bounds k hIn hOut
      exact ih _ h.1 h.2

theorem consoleQueueKey_full_noop (k : KeyRing) (ch : Nat)
    (hIn : k.keyIn < KeyBufSize)
    (h : (k.keyIn + 1) % KeyBufSize = k.keyOut) : consoleQueueKey k ch = k := by
  unfold consoleQueueKey
  have he : (if k.keyIn + 1 = KeyBufSize then 0 else k.keyIn + 1) = k.keyOut := by
    rw [← h]
    unfold KeyBufSize at *
    split <;> omega
  simp [he]

/-- Claim C5: for every sequence of `consoleQueueKey` and `consoleGetKey`
calls starting from the empty keyboard ring, the ring is empty exactly when
`keyIn = keyOut`, the occupancy never exceeds 49, and a `consoleQueueKey`
call made when the ring is full leaves the state entirely unchanged (the
newest character is dropped). -/
theorem console_keyring_invariant (ops : List KeyOp) (ch : Nat) :
    (keyOccupancy (keyRun initKeyRing ops) = 0 ↔
      (keyRun initKeyRing ops).keyIn = (keyRun initKeyRing ops).keyOut) ∧
    keyOccupancy (keyRun initKeyRing ops) ≤ 49 ∧
    (((keyRun initKeyRing ops).keyIn + 1) % KeyBufSize =
        (keyRun initKeyRing ops).keyOut →
      consoleQueueKey (keyRun initKeyRing ops) ch = keyRun initKeyRing ops) := by
  have hB := keyRun_bounds ops initKeyRing (by decide) (by decide)
  unfold KeyBufSize at hB
  refine ⟨?_, ?_, ?_⟩
  · unfold keyOccupancy KeyBufSize
    omega
  · unfold keyOccupancy KeyBufSize
    omega
  · intro h
    exact consoleQueueKey_full_noop _ ch hB.1 h

/-- Claim C6: `consoleGetKey` returns 0 on an empty ring without touching
the state; on a non-empty ring it increments the throttle counter and
delivers the next queued key (advancing `keyOut`) exactly when the
incremented counter is 1 modulo 3, returning 0 and consuming nothing on
every other call. -/
theorem console_getkey_throttle (k : KeyRing)
    (hOut : k.keyOut < KeyBufSize) :
    (k.keyIn = k.keyOut → consoleGetKey k = (0, k)) ∧
    (k.keyIn ≠ k.keyOut →
      (consoleGetKey k).2.keyloops = (k.keyloops + 1) % 18446744073709551616 ∧
      (((k.keyloops + 1) % 18446744073709551616) % 3 = 1 →
        (consoleGetKey k).1 = k.ring.getD k.keyOut 0 ∧
        (consoleGetKey k).2.keyOut = (k.keyOut + 1) % KeyBufSize ∧
        (consoleGetKey k).2.ring = k.ring ∧
        (consoleGetKey k).2.keyIn = k.keyIn) ∧
      (((k.keyloops + 1) % 18446744073709551616) % 3 ≠ 1 →
        (consoleGetKey k).1 = 0 ∧
        (consoleGetKey k).2.keyOut = k.keyOut ∧
        (consoleGetKey k).2.ring = k.ring ∧
        (consoleGetKey k).2.keyIn = k.keyIn)) := by
  constructor
  · intro he
    unfold consoleGetKey
    rw [if_pos he]
  · intro hne
    unfold consoleGetKey
    rw [if_neg hne]
    by_cases h3 : (k.keyloops + 1) % 18446744073709551616 % 3 ≠ 1
    · rw [if_pos h3]
      refine ⟨rfl, fun hc => absurd hc h3, fun _ => ⟨rfl, rfl, rfl, rfl⟩⟩
    · rw [if_neg h3]
      rw [not_not] at h3
      refine ⟨rfl, fun _ => ⟨rfl, ?_, rfl, rfl⟩, fun hc => absurd h3 hc⟩
      show (if k.keyOut + 1 = KeyBufSize then 0 else k.keyOut + 1) =
        (k.keyOut + 1) % KeyBufSize
      unfold KeyBufSize at *
      split <;> omega

/-- Witness for C6 at a one-key ring. -/
theorem console_getkey_throttle_witness :
    let k : KeyRing :=
      { ring := List.replicate KeyBufSize 0, keyIn := 1, keyOut := 0,
        keyloops := 0 }
    (k.keyIn = k.keyOut → consoleGetKey k = (0, k)) ∧
    (k.keyIn ≠ k.keyOut →
      (consoleGetKey k).2.keyloops = (k.keyloops + 1) % 18446744073709551616 ∧
      (((k.keyloops + 1) % 18446744073709551616) % 3 = 1 →
        (consoleGetKey k).1 = k.ring.getD k.keyOut 0 ∧
        (consoleGetKey k).2.keyOut = (k.keyOut + 1) % KeyBufSize ∧
        (consoleGetKey k).2.ring = k.ring ∧
        (consoleGetKey k).2.keyIn = k.keyIn) ∧
      (((k.keyloops + 1) % 18446744073709551616) % 3 ≠ 1 →
        (consoleGetKey k).1 = 0 ∧
        (consoleGetKey k).2.keyOut = k.keyOut ∧
        (consoleGetKey k).2.ring = k.ring ∧
        (consoleGetKey k).2.keyIn = k.keyIn)) :=
  console_getkey_throttle _ (by decide)

/-- Claim C8 counterexample: the 1612 ASCII transaction of the claim
(select; one data word 0o3031; single space; disconnect) leaves the capture
file holding `I`, newline, newline -- not the claimed three bytes `HI`
newline.  The io path prints only the low six bits of the word, and the
disconnect unconditionally appends a line terminator. -/
theorem lp1612_print_transaction_counterexample :
    (lp1612Run lp1612InitAscii c8Ops).output = ['I', '\n', '\n'] ∧
    ['I', '\n', '\n'] ≠ ['H', 'I', '\n'] := by decide

/-- Claim C8 (amended): in the claimed 1612 ASCII transaction, the single
I/O cycle prints one character -- the external-BCD character in the data
word's low six bits ('I') -- the single-space code appends a newline, and
the disconnect appends one more unconditional newline, so the file ends as
`I` newline newline. -/
theorem lp1612_print_transaction_amended :
    (lp1612Run lp1612InitAscii
      [Lp1612Op.func FcPrintSelect, Lp1612Op.ppPut 0o3031,
       Lp1612Op.io]).output = ['I'] ∧
    (lp1612Run lp1612InitAscii c8Ops).output = ['I', '\n', '\n'] := by decide

/-- Claim C9: for both printer families, removePaper on a capture file at
position 0 flushes, logs and stops: the state (handle included) is
unchanged and no close, rename attempt or reopen happens. -/
theorem removePaper_empty_noop (renameOk : Nat → Bool) (reopenOk : Bool)
    (st : RpState) (h1 : st.fcb = true) (h2 : st.filePos = 0) :
    lp3000RemovePaper true true true true renameOk reopenOk st =
      (st, [PaperEvt.flush, PaperEvt.log]) ∧
    lp1612RemovePaper true true true true renameOk reopenOk st =
      (st, [PaperEvt.flush, PaperEvt.log]) := by
  unfold lp3000RemovePaper lp1612RemovePaper
  rw [h1, h2]
  exact ⟨rfl, rfl⟩

/-- Witness for C9 on an open zero-length capture file. -/
theorem removePaper_empty_noop_witness :
    lp3000RemovePaper true true true true (fun _ => true) true
        { fcb := true, filePos := 0 } =
      ({ fcb := true, filePos := 0 }, [PaperEvt.flush, PaperEvt.log]) ∧
    lp1612RemovePaper true true true true (fun _ => true) true
        { fcb := true, filePos := 0 } =
      ({ fcb := true, filePos := 0 }, [PaperEvt.flush, PaperEvt.log]) :=
  removePaper_empty_noop (fun _ => true) true _ rfl rfl

/-- Claim C10: `consoleFunc` drops the channel's `full` flag before
dispatching, so every call -- the declined path for an unrecognized code
included -- discards a pending channel word; on the declined path nothing
else changes and no function code is latched. -/
theorem console_func_declined_frame (s : ConsoleState) (code : Nat) :
    (consoleFunc s code).2.chFull = false ∧
    (code ∉ console6612Codes →
      consoleFunc s code = (FcStatus.declined, { s with chFull := false })) := by
  constructor
  · unfold consoleFunc consoleSelect conEmit
    repeat' (first | split | dsimp only)
  · intro h
    simp only [console6612Codes, List.mem_cons, List.not_mem_nil, or_false,
      not_or] at h
    obtain ⟨n1, n2, n3, n4, n5, n6, n7, n8, n9⟩ := h
    unfold consoleFunc
    simp only []
    rw [if_neg n1, if_neg n2, if_neg n3, if_neg n4, if_neg n5,
      if_neg n6, if_neg n7, if_neg n8, if_neg n9]

theorem lp3000Func_single_eq (s : Lp3000State) (h : s.fcbOpen = true) :
    lp3000Func s FcPrintSingle = (FcStatus.processed, lp3000FuncSingle s) := by
  unfold lp3000Func
  rw [if_neg (by simp [h]), if_neg (by decide), if_neg (by decide),
      if_neg (by decide), if_neg (by decide), if_pos rfl]

theorem lp3000Func_double_eq (s : Lp3000State) (h : s.fcbOpen = true) :
    lp3000Func s FcPrintDouble = (FcStatus.processed, lp3000FuncDouble s) := by
  unfold lp3000Func
  rw [if_neg (by simp [h]), if_neg (by decide), if_neg (by decide),
      if_neg (by decide), if_neg (by decide), if_neg (by decide),
      if_neg (by decide), if_neg (by decide), if_pos rfl]

/-- Claim C1 counterexample: on the freshly initialised 501/3555 printer in
ASCII mode -- which is in postprint mode -- the Single function code emits a
newline at func time, where the claim says nothing is emitted in postprint
mode in both output modes. -/
theorem lp3000_func_spacing_counterexample :
    (lp3000InitState 0o21 false).lc.extpostprint = true ∧
    (lp3000InitState 0o21 false).lc.extuseANSI = false ∧
    (lp3000Func (lp3000InitState 0o21 false) FcPrintSingle).2.output =
      (lp3000InitState 0o21 false).output ++ ['\n'] := by decide

/-- Claim C1 (amended): in ANSI mode the Single and Double codes emit
nothing at func time in postprint mode (the spacing is deferred to the
disconnect) and terminate the line immediately in preprint mode; in ASCII
mode both codes emit their spacing immediately at func time regardless of
the preprint/postprint setting. -/
theorem lp3000_func_spacing_amended (s : Lp3000State) (h : s.fcbOpen = true) :
    (s.lc.extuseANSI = true → s.lc.extpostprint = true →
      (lp3000Func s FcPrintSingle).2.output = s.output ∧
      (lp3000Func s FcPrintDouble).2.output = s.output) ∧
    (s.lc.extpostprint = false →
      (lp3000Func s FcPrintSingle).2.output =
        s.output ++ (if s.lc.extuseANSI then ['\n', ' '] else ['\n']) ∧
      (lp3000Func s FcPrintSingle).2.lc.extcurline =
        (s.lc.extcurline + 1) % 256 ∧
      (lp3000Func s FcPrintDouble).2.output =
        s.output ++ (if s.lc.extuseANSI then ['\n', '0'] else ['\n', '\n']) ∧
      (lp3000Func s FcPrintDouble).2.lc.extcurline =
        (s.lc.extcurline + 2) % 256) ∧
    (s.lc.extuseANSI = false → s.lc.extpostprint = true →
      (lp3000Func s FcPrintSingle).2.output = s.output ++ ['\n'] ∧
      (lp3000Func s FcPrintDouble).2.output = s.output ++ ['\n', '\n']) := by
  rw [lp3000Func_single_eq s h, lp3000Func_double_eq s h]
  refine ⟨fun hA hP => ?_, fun hP => ?_, fun hA hP => ?_⟩
  · constructor <;>
      simp [lp3000FuncSingle, lp3000FuncDouble, lpEmit, hA, hP]
  · cases hA : s.lc.extuseANSI <;>
      refine ⟨?_, ?_, ?_, ?_⟩ <;>
      simp [lp3000FuncSingle, lp3000FuncDouble, lpEmit, hA, hP]
  · constructor <;>
      simp [lp3000FuncSingle, lp3000FuncDouble, lpEmit, hA, hP]

/-- Witness for the amended C1 at the ANSI 501/3555 initial state. -/
theorem lp3000_func_spacing_amended_witness :
    (lp3000Func (lp3000InitState 0o21 true) FcPrintSingle).2.output =
      (lp3000InitState 0o21 true).output :=
  ((lp3000_func_spacing_amended (lp3000InitState 0o21 true) rfl).1 rfl rfl).1

/-- Claim C2: a 3000-series disconnect that completes an Output transaction
emits the suppressed-advance bytes when `extsuppress` is set (clearing it),
else in postprint mode the spacing selected by `extspaceopt` (resetting the
option to Single), else a single tab; a disconnect whose latched code is
not Output changes nothing. -/
theorem lp3000_disconnect_output_spacing (s : Lp3000State)
    (h : s.fcbOpen = true) :
    (s.fcode = Fc6681Output →
      (s.lc.extsuppress = true →
        (lp3000Disconnect s).output =
          s.output ++ (if s.lc.extuseANSI then ['\n', '+'] else ['\r']) ∧
        (lp3000Disconnect s).lc.extsuppress = false) ∧
      (s.lc.extsuppress = false → s.lc.extpostprint = true →
        (lp3000Disconnect s).output = s.output ++
          (if s.lc.extspaceopt = FcPrintDouble then
            (if s.lc.extuseANSI then ['\n', '0'] else ['\n', '\n'])
          else (if s.lc.extuseANSI then ['\n', ' '] else ['\n'])) ∧
        (lp3000Disconnect s).lc.extspaceopt = FcPrintSingle) ∧
      (s.lc.extsuppress = false → s.lc.extpostprint = false →
        (lp3000Disconnect s).output = s.output ++ ['\t']) ∧
      (lp3000Disconnect s).fcode = 0) ∧
    (s.fcode ≠ Fc6681Output → lp3000Disconnect s = s) := by
  constructor
  · intro hfc
    refine ⟨fun hsup => ?_, fun hsup hpp => ?_, fun hsup hpp => ?_, ?_⟩
    · cases hA : s.lc.extuseANSI <;>
        simp [lp3000Disconnect, h, hfc, hsup, lpEmit, hA]
    · by_cases hso : s.lc.extspaceopt = FcPrintDouble <;>
        cases hA : s.lc.extuseANSI <;>
        simp [lp3000Disconnect, h, hfc, hsup, hpp, hso, lpEmit, hA]
    · simp [lp3000Disconnect, h, hfc, hsup, hpp, lpEmit]
    · by_cases hsup : s.lc.extsuppress = true <;>
        by_cases hpp : s.lc.extpostprint = true <;>
        by_cases hso : s.lc.extspaceopt = FcPrintDouble <;>
        simp [lp3000Disconnect, h, hfc, hsup, hpp, hso, lpEmit]
  · intro hne
    unfold lp3000Disconnect
    rw [if_neg (by simp [h]), if_neg hne]

/-- Witness for C2 at the initial 512/3152 ANSI state with Output latched:
the postprint single-space path emits the ASA blank-advance line end. -/
theorem lp3000_disconnect_output_spacing_witness :
    (lp3000Disconnect { lp3000InitState 0o12 true with
        fcode := Fc6681Output }).output =
      ({ lp3000InitState 0o12 true with fcode := Fc6681Output } :
        Lp3000State).output ++ ['\n', ' '] :=
  (((lp3000_disconnect_output_spacing
    { lp3000InitState 0o12 true with fcode := Fc6681Output } rfl).1
      rfl).2.1 rfl rfl).1

theorem lp3000Func_sel3555Ready_eq (s : Lp3000State) (h : s.fcbOpen = true)
    (h2 : s.lc.flags &&& Lp3000Type3555 ≠ 0) :
    lp3000Func s Fc3555SelIntReady =
      (FcStatus.processed, lp3000SelIntReady s) := by
  unfold lp3000Func
  rw [if_neg (by simp [h]), if_neg (by decide), if_neg (by decide),
      if_neg (by decide), if_neg (by decide), if_neg (by decide),
      if_neg (by decide), if_neg (by decide), if_neg (by decide),
      if_neg (by decide), if_neg (by decide), if_pos h2,
      if_neg (by decide), if_neg (by decide), if_neg (by decide),
      if_neg (by decide), if_neg (by decide), if_neg (by decide),
      if_neg (by decide), if_neg (by decide), if_neg (by decide),
      if_pos rfl]

theorem lp3000Func_rel3555Ready_eq (s : Lp3000State) (h : s.fcbOpen = true)
    (h2 : s.lc.flags &&& Lp3000Type3555 ≠ 0) :
    lp3000Func s Fc3555RelIntReady =
      (FcStatus.processed, lp3000RelIntReady s) := by
  unfold lp3000Func
  rw [if_neg (by simp [h]), if_neg (by decide), if_neg (by decide),
      if_neg (by decide), if_neg (by decide), if_neg (by decide),
      if_neg (by decide), if_neg (by decide), if_neg (by decide),
      if_neg (by decide), if_neg (by decide), if_pos h2,
      if_neg (by decide), if_neg (by decide), if_neg (by decide),
      if_neg (by decide), if_neg (by decide), if_neg (by decide),
      if_neg (by decide), if_neg (by decide), if_neg (by decide),
      if_neg (by decide), if_pos rfl]

theorem lp3000Func_sel3555End_eq (s : Lp3000State) (h : s.fcbOpen = true)
    (h2 : s.lc.flags &&& Lp3000Type3555 ≠ 0) :
    lp3000Func s Fc3555SelIntEnd =
      (FcStatus.processed, lp3000SelIntEnd s) := by
  unfold lp3000Func
  rw [if_neg (by simp [h]), if_neg (by decide), if_neg (by decide),
      if_neg (by decide), if_neg (by decide), if_neg (by decide),
      if_neg (by decide), if_neg (by decide), if_neg (by decide),
      if_neg (by decide), if_neg (by decide), if_pos h2,
      if_neg (by decide), if_neg (by decide), if_neg (by decide),
      if_neg (by decide), if_neg (by decide), if_neg (by decide),
      if_neg (by decide), if_neg (by decide), if_neg (by decide),
      if_neg (by decide), if_neg (by decide), if_pos rfl]

theorem lp3000Func_rel3555End_eq (s : Lp3000State) (h : s.fcbOpen = true)
    (h2 : s.lc.flags &&& Lp3000Type3555 ≠ 0) :
    lp3000Func s Fc3555RelIntEnd =
      (FcStatus.processed, lp3000RelIntEnd s) := by
  unfold lp3000Func
  rw [if_neg (by simp [h]), if_neg (by decide), if_neg (by decide),
      if_neg (by decide), if_neg (by decide), if_neg (by decide),
      if_neg (by decide), if_neg (by decide), if_neg (by decide),
      if_neg (by decide), if_neg (by decide), if_pos h2,
      if_neg (by decide), if_neg (by decide), if_neg (by decide),
      if_neg (by decide), if_neg (by decide), if_neg (by decide),
      if_neg (by decide), if_neg (by decide), if_neg (by decide),
      if_neg (by decide), if_neg (by decide), if_neg (by decide),
      if_pos rfl]

theorem lp3000Func_sel3152Ready_eq (s : Lp3000State) (h : s.fcbOpen = true)
    (h2 : s.lc.flags &&& Lp3000Type3555 = 0) :
    lp3000Func s Fc3152SelIntReady =
      (FcStatus.processed, lp3000SelIntReady s) := by
  unfold lp3000Func
  rw [if_neg (by simp [h]), if_neg (by decide), if_neg (by decide),
      if_neg (by decide), if_neg (by decide), if_neg (by decide),
      if_neg (by decide), if_neg (by decide), if_neg (by decide),
      if_neg (by decide), if_neg (by decide), if_neg (by simp [h2]),
      if_neg (by decide), if_neg (by decide), if_neg (by decide),
      if_neg (by decide), if_pos rfl]

theorem lp3000Func_rel3152Ready_eq (s : Lp3000State) (h : s.fcbOpen = true)
    (h2 : s.lc.flags &&& Lp3000Type3555 = 0) :
    lp3000Func s Fc3152RelIntReady =
      (FcStatus.processed, lp3000RelIntReady s) := by
  unfold lp3000Func
  rw [if_neg (by simp [h]), if_neg (by decide), if_neg (by decide),
      if_neg (by decide), if_neg (by decide), if_neg (by decide),
      if_neg (by decide), if_neg (by decide), if_neg (by decide),
      if_neg (by decide), if_neg (by decide), if_neg (by simp [h2]),
      if_neg (by decide), if_neg (by decide), if_neg (by decide),
      if_neg (by decide), if_neg (by decide), if_pos rfl]

theorem lp3000Func_sel3152End_eq (s : Lp3000State) (h : s.fcbOpen = true)
    (h2 : s.lc.flags &&& Lp3000Type3555 = 0) :
    lp3000Func s Fc3152SelIntEnd =
      (FcStatus.processed, lp3000SelIntEnd s) := by
  unfold lp3000Func
  rw [if_neg (by simp [h]), if_neg (by decide), if_neg (by decide),
      if_neg (by decide), if_neg (by decide), if_neg (by decide),
      if_neg (by decide), if_neg (by decide), if_neg (by decide),
      if_neg (by decide), if_neg (by decide), if_neg (by simp [h2]),
      if_neg (by decide), if_neg (by decide), if_neg (by decide),
      if_neg (by decide), if_neg (by decide), if_neg (by decide),
      if_pos rfl]

theorem lp3000Func_rel3152End_eq (s : Lp3000State) (h : s.fcbOpen = true)
    (h2 : s.lc.flags &&& Lp3000Type3555 = 0) :
    lp3000Func s Fc3152RelIntEnd =
      (FcStatus.processed, lp3000RelIntEnd s) := by
  unfold lp3000Func
  rw [if_neg (by simp [h]), if_neg (by decide), if_neg (by decide),
      if_neg (by decide), if_neg (by decide), if_neg (by decide),
      if_neg (by decide), if_neg (by decide), if_neg (by decide),
      if_neg (by decide), if_neg (by decide), if_neg (by simp [h2]),
      if_neg (by decide), if_neg (by decide), if_neg (by decide),
      if_neg (by decide), if_neg (by decide), if_neg (by decide),
      if_neg (by decide), if_pos rfl]

theorem lp3000SelIntReady_props (s : Lp3000State) :
    (lp3000SelIntReady s).lc.flags &&& Lp3000IntReadyEna ≠ 0 ∧
    (s.lc.keepInt = true →
      (lp3000SelIntReady s).lc.flags &&& Lp3000IntReady ≠ 0 ∧
      (lp3000SelIntReady s).lc.keepInt = false) ∧
    (s.lc.keepInt = false →
      (lp3000SelIntReady s).lc.flags &&& Lp3000IntReady = 0 ∧
      (lp3000SelIntReady s).lc.keepInt = false) ∧
    (lp3000SelIntReady s).intSum =
      ((lp3000SelIntReady s).lc.flags &&&
        (Lp3000IntReady ||| Lp3000IntEnd) != 0) := by
  unfold lp3000SelIntReady
  simp only []
  cases hk : s.lc.keepInt <;> simp only [hk, Bool.false_eq_true, if_false, if_true]
  · refine ⟨?_, fun hkk => by simp at hkk, fun _ => ⟨?_, trivial⟩, trivial⟩
    · rw [flagTest _ Lp3000IntReadyEna 10 (by decide)]
      simp [testBit_clearBits, Nat.testBit_or, tbReady, tbReadyEna]
    · rw [flagTestZero _ Lp3000IntReady 7 (by decide)]
      simp [testBit_clearBits, Nat.testBit_or, tbReady, tbReadyEna]
  · refine ⟨?_, fun _ => ⟨?_, trivial⟩, fun hkk => by simp at hkk, trivial⟩
    · rw [flagTest _ Lp3000IntReadyEna 10 (by decide)]
      simp [Nat.testBit_or, tbReady, tbReadyEna]
    · rw [flagTest _ Lp3000IntReady 7 (by decide)]
      simp [Nat.testBit_or, tbReady, tbReadyEna]

theorem lp3000SelIntEnd_props (s : Lp3000State) :
    (lp3000SelIntEnd s).lc.flags &&& Lp3000IntEndEna ≠ 0 ∧
    (s.lc.keepInt = true →
      (lp3000SelIntEnd s).lc.flags &&& Lp3000IntEnd ≠ 0 ∧
      (lp3000SelIntEnd s).lc.keepInt = false) ∧
    (s.lc.keepInt = false →
      (lp3000SelIntEnd s).lc.flags &&& Lp3000IntEnd = 0 ∧
      (lp3000SelIntEnd s).lc.keepInt = false) ∧
    (lp3000SelIntEnd s).intSum =
      ((lp3000SelIntEnd s).lc.flags &&&
        (Lp3000IntReady ||| Lp3000IntEnd) != 0) := by
  unfold lp3000SelIntEnd
  simp only []
  cases hk : s.lc.keepInt <;> simp only [hk, Bool.false_eq_true, if_false, if_true]
  · refine ⟨?_, fun hkk => by simp at hkk, fun _ => ⟨?_, trivial⟩, trivial⟩
    · rw [flagTest _ Lp3000IntEndEna 11 (by decide)]
      simp [testBit_clearBits, Nat.testBit_or, tbEnd, tbEndEna]
    · rw [flagTestZero _ Lp3000IntEnd 8 (by decide)]
      simp [testBit_clearBits, Nat.testBit_or, tbEnd, tbEndEna]
  · refine ⟨?_, fun _ => ⟨?_, trivial⟩, fun hkk => by simp at hkk, trivial⟩
    · rw [flagTest _ Lp3000IntEndEna 11 (by decide)]
      simp [Nat.testBit_or, tbEnd, tbEndEna]
    · rw [flagTest _ Lp3000IntEnd 8 (by decide)]
      simp [Nat.testBit_or, tbEnd, tbEndEna]

theorem lp3000RelIntReady_props (s : Lp3000State) :
    (lp3000RelIntReady s).lc.flags &&& Lp3000IntReadyEna = 0 ∧
    (lp3000RelIntReady s).lc.flags &&& Lp3000IntReady = 0 ∧
    (lp3000RelIntReady s).intSum =
      ((lp3000RelIntReady s).lc.flags &&&
        (Lp3000IntReady ||| Lp3000IntEnd) != 0) := by
  unfold lp3000RelIntReady
  refine ⟨?_, ?_, rfl⟩
  · rw [flagTestZero _ Lp3000IntReadyEna 10 (by decide)]
    simp [testBit_clearBits, Nat.testBit_or, tbReady, tbReadyEna]
  · rw [flagTestZero _ Lp3000IntReady 7 (by decide)]
    simp [testBit_clearBits, Nat.testBit_or, tbReady, tbReadyEna]

theorem lp3000RelIntEnd_props (s : Lp3000State) :
    (lp3000RelIntEnd s).lc.flags &&& Lp3000IntEndEna = 0 ∧
    (lp3000RelIntEnd s).lc.flags &&& Lp3000IntEnd = 0 ∧
    (lp3000RelIntEnd s).intSum =
      ((lp3000RelIntEnd s).lc.flags &&&
        (Lp3000IntReady ||| Lp3000IntEnd) != 0) := by
  unfold lp3000RelIntEnd
  refine ⟨?_, ?_, rfl⟩
  · rw [flagTestZero _ Lp3000IntEndEna 11 (by decide)]
    simp [testBit_clearBits, Nat.testBit_or, tbEnd, tbEndEna]
  · rw [flagTestZero _ Lp3000IntEnd 8 (by decide)]
    simp [testBit_clearBits, Nat.testBit_or, tbEnd, tbEndEna]

/-- Claim C4 counterexample: a reachable state (an Output transfer with no
interrupt enabled, then disconnect) has `keepInt` set while `IntReady` is
clear, and `SelIntReady` then *sets* the latched bit rather than leaving it
as-is, as the claim states. -/
theorem lp3000_sel_keepInt_counterexample :
    (lp3000Run (lp3000InitState 0o21 false) c4CexOps).lc.keepInt = true ∧
    (lp3000Run (lp3000InitState 0o21 false) c4CexOps).lc.flags &&&
      Lp3000IntReady = 0 ∧
    (lp3000Func (lp3000Run (lp3000InitState 0o21 false) c4CexOps)
      Fc3555SelIntReady).2.lc.flags &&& Lp3000IntReady ≠ 0 := by decide

/-- Claim C4 (amended): for SelIntReady and SelIntEnd on either controller,
the enable bit is set and, if `keepInt` is true, the latched interrupt bit
is *set* (not merely left as-is) and `keepInt` cleared; otherwise the
latched bit is cleared.  For RelIntReady and RelIntEnd both the enable and
the latched bit are cleared.  All four paths store the recomputed aggregate
interrupt summary and return Processed. -/
theorem lp3000_interrupt_select_amended (s : Lp3000State)
    (h : s.fcbOpen = true) :
    (s.lc.flags &&& Lp3000Type3555 ≠ 0 →
      lp3000Func s Fc3555SelIntReady =
        (FcStatus.processed, lp3000SelIntReady s) ∧
      lp3000Func s Fc3555RelIntReady =
        (FcStatus.processed, lp3000RelIntReady s) ∧
      lp3000Func s Fc3555SelIntEnd =
        (FcStatus.processed, lp3000SelIntEnd s) ∧
      lp3000Func s Fc3555RelIntEnd =
        (FcStatus.processed, lp3000RelIntEnd s)) ∧
    (s.lc.flags &&& Lp3000Type3555 = 0 →
      lp3000Func s Fc3152SelIntReady =
        (FcStatus.processed, lp3000SelIntReady s) ∧
      lp3000Func s Fc3152RelIntReady =
        (FcStatus.processed, lp3000RelIntReady s) ∧
      lp3000Func s Fc3152SelIntEnd =
        (FcStatus.processed, lp3000SelIntEnd s) ∧
      lp3000Func s Fc3152RelIntEnd =
        (FcStatus.processed, lp3000RelIntEnd s)) ∧
    ((lp3000SelIntReady s).lc.flags &&& Lp3000IntReadyEna ≠ 0 ∧
      (s.lc.keepInt = true →
        (lp3000SelIntReady s).lc.flags &&& Lp3000IntReady ≠ 0 ∧
        (lp3000SelIntReady s).lc.keepInt = false) ∧
      (s.lc.keepInt = false →
        (lp3000SelIntReady s).lc.flags &&& Lp3000IntReady = 0 ∧
        (lp3000SelIntReady s).lc.keepInt = false) ∧
      (lp3000SelIntReady s).intSum =
        ((lp3000SelIntReady s).lc.flags &&&
          (Lp3000IntReady ||| Lp3000IntEnd) != 0)) ∧
    ((lp3000SelIntEnd s).lc.flags &&& Lp3000IntEndEna ≠ 0 ∧
      (s.lc.keepInt = true →
        (lp3000SelIntEnd s).lc.flags &&& Lp3000IntEnd ≠ 0 ∧
        (lp3000SelIntEnd s).lc.keepInt = false) ∧
      (s.lc.keepInt = false →
        (lp3000SelIntEnd s).lc.flags &&& Lp3000IntEnd = 0 ∧
        (lp3000SelIntEnd s).lc.keepInt = false) ∧
      (lp3000SelIntEnd s).intSum =
        ((lp3000SelIntEnd s).lc.flags &&&
          (Lp3000IntReady ||| Lp3000IntEnd) != 0)) ∧
    ((lp3000RelIntReady s).lc.flags &&& Lp3000IntReadyEna = 0 ∧
      (lp3000RelIntReady s).lc.flags &&& Lp3000IntReady = 0 ∧
      (lp3000RelIntReady s).intSum =
        ((lp3000RelIntReady s).lc.flags &&&
          (Lp3000IntReady ||| Lp3000IntEnd) != 0)) ∧
    ((lp3000RelIntEnd s).lc.flags &&& Lp3000IntEndEna = 0 ∧
      (lp3000RelIntEnd s).lc.flags &&& Lp3000IntEnd = 0 ∧
      (lp3000RelIntEnd s).intSum =
        ((lp3000RelIntEnd s).lc.flags &&&
          (Lp3000IntReady ||| Lp3000IntEnd) != 0)) := by
  exact ⟨fun h2 => ⟨lp3000Func_sel3555Ready_eq s h h2,
      lp3000Func_rel3555Ready_eq s h h2,
      lp3000Func_sel3555End_eq s h h2,
      lp3000Func_rel3555End_eq s h h2⟩,
    fun h2 => ⟨lp3000Func_sel3152Ready_eq s h h2,
      lp3000Func_rel3152Ready_eq s h h2,
      lp3000Func_sel3152End_eq s h h2,
      lp3000Func_rel3152End_eq s h h2⟩,
    lp3000SelIntReady_props s, lp3000SelIntEnd_props s,
    lp3000RelIntReady_props s, lp3000RelIntEnd_props s⟩

/-- Witness for the amended C4 at the initial 501/3555 printer. -/
theorem lp3000_interrupt_select_amended_witness :
    lp3000Func (lp3000InitState 0o21 false) Fc3555SelIntReady =
      (FcStatus.processed, lp3000SelIntReady (lp3000InitState 0o21 false)) :=
  ((lp3000_interrupt_select_amended (lp3000InitState 0o21 false) rfl).1
    (by decide)).1

/-- Claim C7: with autodate enabled, a character-mode word written in
Medium font is checked against the next two pattern characters: a full
match of the remaining pattern with the keyboard ring empty disables
autodate and enqueues the injected date/time bytes (the `strftime` text
with its first two characters overridden by the year prefix); a partial
match advances `autoPos` by two; a mismatch resets `autoPos` to zero. -/
theorem console_autodate (env : ConsoleEnv) (s : ConsoleState)
    (hAuto : s.autoDate = true)
    (hFc : s.fcode = Fc6612Sel32CharLeft ∨ s.fcode = Fc6612Sel32CharRight)
    (hFull : s.chFull = true)
    (hChar : (s.chData >>> 6) &&& 0o77 < 0o60) :
    (autoMatches env s → autoAtEnd env s →
      s.keys.keyOut = s.keys.keyIn →
      (consoleIo env s).autoDate = false ∧
      (consoleIo env s).keys = autoInject env s.keys) ∧
    (autoMatches env s → ¬ autoAtEnd env s →
      (consoleIo env s).autoPos = s.autoPos + 2 ∧
      (consoleIo env s).autoDate = true) ∧
    (¬ autoMatches env s →
      (consoleIo env s).autoPos = 0 ∧
      (consoleIo env s).autoDate = true) := by
  have hOr : s.fcode = Fc6612Sel64CharLeft ∨ s.fcode = Fc6612Sel32CharLeft ∨
      s.fcode = Fc6612Sel16CharLeft ∨ s.fcode = Fc6612Sel64CharRight ∨
      s.fcode = Fc6612Sel32CharRight ∨ s.fcode = Fc6612Sel16CharRight := by
    rcases hFc with hf | hf
    · exact Or.inr (Or.inl hf)
    · exact Or.inr (Or.inr (Or.inr (Or.inr (Or.inl hf))))
  refine ⟨fun hm he hq => ?_, fun hm hne => ?_, fun hnm => ?_⟩ <;>
    unfold consoleIo consoleIoChar consoleAutoDate conEmit <;>
    rw [if_pos hOr, if_pos hFull] <;>
    dsimp only <;>
    rw [if_neg (by omega : ¬((s.chData >>> 6) &&& 0o77 ≥ 0o60)),
       if_pos hAuto] <;>
    dsimp only
  · split
    · split
      · exact ⟨rfl, rfl⟩
      · rename_i hcond
        exact absurd he hcond
    · rename_i hcond
      exact absurd hm hcond
  · split
    · split
      · rename_i hcond
        exact absurd hcond hne
      · exact ⟨rfl, hAuto⟩
    · rename_i hcond
      exact absurd hm hcond
  · split
    · rename_i hcond
      exact absurd hcond hnm
    · exact ⟨rfl, hAuto⟩

/-- Witness for C7: an all-zero environment with an empty pattern matches
at once, so the word injects the (empty) date text and clears autodate. -/
theorem console_autodate_witness :
    (consoleIo
      { asciiToCdc := fun _ => 0, asciiToConsole := fun _ => 0,
        consoleToAscii := fun _ => 0, autoDateString := [],
        autoYearString := [], timeStr := [], hostKey := 0 }
      { currentFont := 0, currentOffset := 0, emptyDrop := false,
        keys := initKeyRing, autoDate := true, autoPos := 0,
        fcode := Fc6612Sel32CharLeft, chData := 0, chFull := true,
        chStatus := 0, ppKeyIn := 0, screen := [] }).autoDate = false ∧
    (consoleIo
      { asciiToCdc := fun _ => 0, asciiToConsole := fun _ => 0,
        consoleToAscii := fun _ => 0, autoDateString := [],
        autoYearString := [], timeStr := [], hostKey := 0 }
      { currentFont := 0, currentOffset := 0, emptyDrop := false,
        keys := initKeyRing, autoDate := true, autoPos := 0,
        fcode := Fc6612Sel32CharLeft, chData := 0, chFull := true,
        chStatus := 0, ppKeyIn := 0, screen := [] }).keys =
      autoInject
        { asciiToCdc := fun _ => 0, asciiToConsole := fun _ => 0,
          consoleToAscii := fun _ => 0, autoDateString := [],
          autoYearString := [], timeStr := [], hostKey := 0 }
        initKeyRing :=
  (console_autodate _ _ rfl (Or.inl rfl) rfl (by decide)).1
    (by decide) (by decide) rfl

end DtCyber
